import Mathlib

/-!
# Verification of the MystralNative ray-tracing binding layer

Shallow embedding of `src/raytracing/rt_common.cpp` (the `mystralRT`
JavaScript binding surface) and `src/raytracing/rt_common.h` (the abstract
backend interface and descriptor types).

Modelling conventions:

* The C++ `uint32_t` id allocators (`g_nextGeometryId`, `g_nextBLASId`,
  `g_nextTLASId`) are modelled as `Nat` with the post-increment reduced
  modulo `2^32`, matching unsigned wraparound.
* `float` scalars are only ever copied by this layer (never computed with),
  so they are modelled abstractly as rationals; `1.0f` is `(1 : Rat)` and
  `0.0f` is `(0 : Rat)`.
* The scripting engine is a capability provider (out of scope per the
  design): a script value read through `engine->getProperty` is modelled as
  an `Option`/sum describing exactly what the binding code can observe of
  it (`isUndefined`, `toNumber`, `getArrayBufferData`).  Typed buffers are
  modelled as element lists; `getArrayBufferData` yields a null pointer or
  a zero byte length exactly when the extraction helpers below yield
  `none`.
* The `std::unordered_map` registries are modelled as association lists
  with first-match lookup; `operator[]` insertion replaces any entry with
  the same key and `erase` removes it.
* The platform backends (DXR / Vulkan RT / Metal RT) are external
  collaborators implementing `IRTBackend`; the bindings call them through
  virtual dispatch, modelled by a record of functions.  The only backend
  in the repository is the stub (`StubRTBackend`).  Calls made into the
  backend are recorded in an explicit call trace so that "no backend call
  is made" is expressible.
* Diagnostics written to `std::cerr`/`std::cout` are not modelled; no
  claim is about them.
-/

/-- `2^32`, the modulus of the C++ `uint32_t` id allocators. -/
def UINT32_MOD : Nat := 4294967296

/-- `float` scalars, modelled abstractly (this layer only copies them). -/
abbrev F32 := Rat

/-- `RTGeometryHandle` from `rt_common.h`: `void* _handle` (0 = `nullptr`)
and `uint32_t _id`. -/
structure RTGeometryHandle where
  native : Nat := 0
  id : Nat := 0
  deriving DecidableEq, Repr

/-- `RTBLASHandle` from `rt_common.h`. -/
structure RTBLASHandle where
  native : Nat := 0
  id : Nat := 0
  deriving DecidableEq, Repr

/-- `RTTLASHandle` from `rt_common.h`. -/
structure RTTLASHandle where
  native : Nat := 0
  id : Nat := 0
  deriving DecidableEq, Repr

/-- `RTTLASInstance` from `rt_common.h`: a BLAS reference, a 4x4 transform
(16 floats), and `instanceId` / `mask` / `flags`. -/
structure RTTLASInstance where
  blas : RTBLASHandle
  transform : List F32
  instanceId : Nat
  mask : Nat
  flags : Nat
  deriving DecidableEq, Repr

/-- `RTGeometryDesc` from `rt_common.h`: vertex view plus optional index
buffer (`indices = none` models a `nullptr` index pointer). -/
structure RTGeometryDesc where
  vertices : List F32
  vertexCount : Nat
  vertexStride : Nat
  vertexOffset : Nat
  indices : Option (List Nat)
  indexCount : Nat
  deriving DecidableEq, Repr

/-- The abstract backend interface `IRTBackend` (the slice the bindings
use for resource creation).  `isSupported` is a pure capability query per
the backend contract; each `create*` returns a handle whose `native`
component is 0 exactly when creation failed.  The destruction and update
entry points return `void` and are observed through the call trace. -/
structure IRTBackend where
  isSupported : Bool
  createGeometry : RTGeometryDesc → RTGeometryHandle
  createBLAS : List RTGeometryHandle → RTBLASHandle
  createTLAS : List RTTLASInstance → RTTLASHandle

/-- `StubRTBackend` from `rt_common.cpp`: `isSupported()` is `false` and
every creation returns a value-initialised (null) handle. -/
def StubRTBackend : IRTBackend where
  isSupported := false
  createGeometry := fun _ => {}
  createBLAS := fun _ => {}
  createTLAS := fun _ => {}

/-- `createRTBackend()` from `rt_common.cpp`: currently always returns the
stub backend. -/
def createRTBackend : IRTBackend := StubRTBackend

/-- What the bindings can observe of a script value expected to be a typed
buffer: `undef` (`isUndefined` true), an actual buffer with its elements,
or some other defined value that is not a buffer (so
`getArrayBufferData` yields a null pointer). -/
inductive JSBufVal (α : Type) where
  | undef
  | buffer (elems : List α)
  | other
  deriving DecidableEq, Repr

/-- A script handle wrapper object as read back by `get*Id`: its `_id`
property is either undefined/missing (`none`) or a number. -/
structure JSHandleObj where
  id : Option Nat
  deriving DecidableEq, Repr

/-- The options object accepted by `createGeometry`. -/
structure JSGeometryOptions where
  vertices : JSBufVal F32
  indices : JSBufVal Nat
  vertexStride : Option Nat
  vertexOffset : Option Nat
  deriving DecidableEq, Repr

/-- One element of the instance array accepted by `createTLAS` and
`updateTLAS`.  `blas` is the handle wrapper object stored in the `blas`
property; numeric properties are `none` when undefined/missing. -/
structure JSInstanceObj where
  blas : JSHandleObj
  transform : JSBufVal F32
  instanceId : Option Nat
  mask : Option Nat
  flags : Option Nat
  deriving DecidableEq, Repr

/-- Resource kind tag carried by the script-visible wrapper objects
(the `_type` property: `"geometry"`, `"blas"` or `"tlas"`). -/
inductive HandleKind where
  | geometry
  | blas
  | tlas
  deriving DecidableEq, Repr

/-- The script wrapper object built by `createGeometryJS` / `createBLASJS`
/ `createTLASJS`: a `_type` tag and the allocated `_id`. -/
structure JSWrapper where
  kind : HandleKind
  id : Nat
  deriving DecidableEq, Repr

/-- `extractFloat32Array` from `rt_common.cpp`: fails (null pointer)
when the value is not a buffer or its byte length is zero; otherwise
yields the data together with the element count (byte length / 4),
here the list itself. -/
def extractFloat32Array (v : JSBufVal F32) : Option (List F32) :=
  match v with
  | .buffer l => if l.length = 0 then none else some l
  | _ => none

/-- `extractUint32Array` from `rt_common.cpp` (same shape for `uint32_t`
elements). -/
def extractUint32Array (v : JSBufVal Nat) : Option (List Nat) :=
  match v with
  | .buffer l => if l.length = 0 then none else some l
  | _ => none

/-- `getGeometryId`: the `_id` property of the wrapper, or 0 when that
property is undefined. -/
def getGeometryId (obj : JSHandleObj) : Nat :=
  match obj.id with
  | none => 0
  | some n => n

/-- `getBLASId` (same body as `getGeometryId` in the source). -/
def getBLASId (obj : JSHandleObj) : Nat :=
  match obj.id with
  | none => 0
  | some n => n

/-- `getTLASId` (same body as `getGeometryId` in the source). -/
def getTLASId (obj : JSHandleObj) : Nat :=
  match obj.id with
  | none => 0
  | some n => n

/-- First-match lookup in an id-keyed table (`unordered_map::find`). -/
def tableFind {α : Type} (k : Nat) : List (Nat × α) → Option α
  | [] => none
  | p :: rest => if p.1 = k then some p.2 else tableFind k rest

/-- `unordered_map::operator[] = v`: store under `k`, replacing any
existing entry with that key. -/
def tableInsert {α : Type} (k : Nat) (v : α) (m : List (Nat × α)) : List (Nat × α) :=
  (k, v) :: m.filter (fun p => decide (p.1 ≠ k))

/-- `unordered_map::erase`: drop the entry with key `k`. -/
def tableErase {α : Type} (k : Nat) : List (Nat × α) → List (Nat × α)
  | [] => []
  | p :: rest => if p.1 = k then tableErase k rest else p :: tableErase k rest

/-- The keys currently present in a table. -/
def tableKeys {α : Type} (m : List (Nat × α)) : List Nat :=
  m.map (fun p => p.1)

/-- The mutable globals of `rt_common.cpp`: the backend pointer
(`g_rtBackend`, `none` = `nullptr`), the three id allocators and the three
registry tables. -/
structure RTState where
  backend : Option IRTBackend
  nextGeometryId : Nat
  nextBLASId : Nat
  nextTLASId : Nat
  geometries : List (Nat × RTGeometryHandle)
  blases : List (Nat × RTBLASHandle)
  tlases : List (Nat × RTTLASHandle)

/-- One call into the backend, as recorded by the bindings. -/
inductive BackendCall where
  | createGeometry (desc : RTGeometryDesc)
  | destroyGeometry (h : RTGeometryHandle)
  | createBLAS (hs : List RTGeometryHandle)
  | destroyBLAS (h : RTBLASHandle)
  | createTLAS (insts : List RTTLASInstance)
  | updateTLAS (h : RTTLASHandle) (insts : List RTTLASInstance)
  | destroyTLAS (h : RTTLASHandle)
  deriving DecidableEq, Repr

/-- The identity transform as built by the marshaling code: the
zero-initialised `RTTLASInstance` transform with entries 0, 5, 10 and 15
set to `1.0f`. -/
def identityTransform : List F32 :=
  (((((List.replicate 16 (0 : F32)).set 0 1).set 5 1).set 10 1).set 15 1)

/-- Transform marshaling shared by `js_createTLAS` and `js_updateTLAS`:
copy the first 16 floats when extraction succeeded with at least 16
elements, otherwise substitute the identity matrix in full. -/
def marshalTransform (v : JSBufVal F32) : List F32 :=
  match extractFloat32Array v with
  | some l => if 16 ≤ l.length then l.take 16 else identityTransform
  | none => identityTransform

/-- Marshal one TLAS instance object (loop body shared verbatim between
`js_createTLAS` and `js_updateTLAS`): resolve the `blas` reference in the
BLAS registry (failure aborts), marshal the transform, default
`instanceId` to 0 when undefined, and set `mask = 0xFF`, `flags = 0`. -/
def marshalInstance (s : RTState) (o : JSInstanceObj) : Option RTTLASInstance :=
  match tableFind (getBLASId o.blas) s.blases with
  | none => none
  | some bh =>
    some { blas := bh
           transform := marshalTransform o.transform
           instanceId := match o.instanceId with
                         | none => 0
                         | some n => n
           mask := 255
           flags := 0 }

/-- The instance-marshaling loop: walks the array in order and aborts the
whole call on the first instance whose `blas` does not resolve. -/
def marshalInstances (s : RTState) : List JSInstanceObj → Option (List RTTLASInstance)
  | [] => some []
  | o :: rest =>
    match marshalInstance s o with
    | none => none
    | some inst =>
      match marshalInstances s rest with
      | none => none
      | some insts => some (inst :: insts)

/-- The geometry-resolution loop of `js_createBLAS`: look each wrapper's
id up in the geometry registry, aborting the whole call on the first
failure. -/
def resolveGeometries (s : RTState) : List JSHandleObj → Option (List RTGeometryHandle)
  | [] => some []
  | o :: rest =>
    match tableFind (getGeometryId o) s.geometries with
    | none => none
    | some h =>
      match resolveGeometries s rest with
      | none => none
      | some hs => some (h :: hs)

/-- `js_createGeometry`.  The argument is `none` when `args` is empty or
`args[0]` is not an object.  Returns the script result (`none` = JS
`null`), the new global state, and the backend calls made. -/
def js_createGeometry (s : RTState) (arg : Option JSGeometryOptions) :
    Option JSWrapper × RTState × List BackendCall :=
  match s.backend with
  | none => (none, s, [])
  | some be =>
    if !be.isSupported then (none, s, []) else
    match arg with
    | none => (none, s, [])
    | some options =>
      match extractFloat32Array options.vertices with
      | none => (none, s, [])
      | some vertices =>
        let indexData : Option (List Nat) × Nat :=
          match options.indices with
          | .undef => (none, 0)
          | iv =>
            match extractUint32Array iv with
            | none => (none, 0)
            | some l => (some l, l.length)
        let vertexStride : Nat :=
          match options.vertexStride with
          | none => 12
          | some n => n
        let vertexOffset : Nat :=
          match options.vertexOffset with
          | none => 0
          | some n => n
        let desc : RTGeometryDesc :=
          { vertices := vertices
            vertexCount := vertices.length / 3
            vertexStride := vertexStride
            vertexOffset := vertexOffset
            indices := indexData.1
            indexCount := indexData.2 }
        let handle := be.createGeometry desc
        if handle.native = 0 then (none, s, [.createGeometry desc])
        else
          let id := s.nextGeometryId
          (some { kind := .geometry, id := id },
           { s with nextGeometryId := (s.nextGeometryId + 1) % UINT32_MOD
                    geometries := tableInsert id { handle with id := id } s.geometries },
           [.createGeometry desc])

/-- `js_createBLAS`.  The argument is `none` when `args` is empty or
`args[0]` is not an array. -/
def js_createBLAS (s : RTState) (arg : Option (List JSHandleObj)) :
    Option JSWrapper × RTState × List BackendCall :=
  match s.backend with
  | none => (none, s, [])
  | some be =>
    if !be.isSupported then (none, s, []) else
    match arg with
    | none => (none, s, [])
    | some objs =>
      if objs.length = 0 then (none, s, []) else
      match resolveGeometries s objs with
      | none => (none, s, [])
      | some handles =>
        let handle := be.createBLAS handles
        if handle.native = 0 then (none, s, [.createBLAS handles])
        else
          let id := s.nextBLASId
          (some { kind := .blas, id := id },
           { s with nextBLASId := (s.nextBLASId + 1) % UINT32_MOD
                    blases := tableInsert id { handle with id := id } s.blases },
           [.createBLAS handles])

/-- `js_createTLAS`. -/
def js_createTLAS (s : RTState) (arg : Option (List JSInstanceObj)) :
    Option JSWrapper × RTState × List BackendCall :=
  match s.backend with
  | none => (none, s, [])
  | some be =>
    if !be.isSupported then (none, s, []) else
    match arg with
    | none => (none, s, [])
    | some objs =>
      if objs.length = 0 then (none, s, []) else
      match marshalInstances s objs with
      | none => (none, s, [])
      | some instances =>
        let handle := be.createTLAS instances
        if handle.native = 0 then (none, s, [.createTLAS instances])
        else
          let id := s.nextTLASId
          (some { kind := .tlas, id := id },
           { s with nextTLASId := (s.nextTLASId + 1) % UINT32_MOD
                    tlases := tableInsert id { handle with id := id } s.tlases },
           [.createTLAS instances])

/-- `js_updateTLAS`.  Returns JS `undefined` (nothing), so the result is
just the state and the backend calls.  The argument is `none` when
`args.size() < 2`; the second component is `none` when `args[1]` is not
an array.  Note the source checks the TLAS reference before the array
shape, and has no empty-array check. -/
def js_updateTLAS (s : RTState) (arg : Option (JSHandleObj × Option (List JSInstanceObj))) :
    RTState × List BackendCall :=
  match s.backend with
  | none => (s, [])
  | some be =>
    if !be.isSupported then (s, []) else
    match arg with
    | none => (s, [])
    | some (tlasObj, instArg) =>
      match tableFind (getTLASId tlasObj) s.tlases with
      | none => (s, [])
      | some th =>
        match instArg with
        | none => (s, [])
        | some objs =>
          match marshalInstances s objs with
          | none => (s, [])
          | some instances => (s, [.updateTLAS th instances])

/-- `js_destroyGeometry`: look the id up; when found, call the backend
destructor (if a backend exists) and erase the entry; otherwise do
nothing.  Always returns JS `undefined`. -/
def js_destroyGeometry (s : RTState) (arg : Option JSHandleObj) :
    RTState × List BackendCall :=
  match arg with
  | none => (s, [])
  | some obj =>
    let gid := getGeometryId obj
    match tableFind gid s.geometries with
    | none => (s, [])
    | some h =>
      ({ s with geometries := tableErase gid s.geometries },
       match s.backend with
       | none => []
       | some _ => [.destroyGeometry h])

/-- `js_destroyBLAS`. -/
def js_destroyBLAS (s : RTState) (arg : Option JSHandleObj) :
    RTState × List BackendCall :=
  match arg with
  | none => (s, [])
  | some obj =>
    let bid := getBLASId obj
    match tableFind bid s.blases with
    | none => (s, [])
    | some h =>
      ({ s with blases := tableErase bid s.blases },
       match s.backend with
       | none => []
       | some _ => [.destroyBLAS h])

/-- `js_destroyTLAS`. -/
def js_destroyTLAS (s : RTState) (arg : Option JSHandleObj) :
    RTState × List BackendCall :=
  match arg with
  | none => (s, [])
  | some obj =>
    let tid := getTLASId obj
    match tableFind tid s.tlases with
    | none => (s, [])
    | some h =>
      ({ s with tlases := tableErase tid s.tlases },
       match s.backend with
       | none => []
       | some _ => [.destroyTLAS h])

/-- The global state right after `initializeRTBindings`: fresh globals
(allocators at 1, empty tables) with the backend installed.  The source
installs `createRTBackend()` (today the stub); the bindings are written
against the `IRTBackend` interface, so the backend is a parameter here. -/
def initRTState (be : IRTBackend) : RTState :=
  { backend := some be
    nextGeometryId := 1
    nextBLASId := 1
    nextTLASId := 1
    geometries := []
    blases := []
    tlases := [] }

/-- `cleanupRTBindings`: destroy every tracked TLAS, BLAS and geometry
(in that order, backend permitting), clear the tables, drop the backend
and reset all three id allocators to 1. -/
def cleanupRTBindings (s : RTState) : RTState × List BackendCall :=
  let calls : List BackendCall :=
    match s.backend with
    | none => []
    | some _ =>
      s.tlases.map (fun p => BackendCall.destroyTLAS p.2)
        ++ s.blases.map (fun p => BackendCall.destroyBLAS p.2)
        ++ s.geometries.map (fun p => BackendCall.destroyGeometry p.2)
  ({ backend := none
     nextGeometryId := 1
     nextBLASId := 1
     nextTLASId := 1
     geometries := []
     blases := []
     tlases := [] }, calls)

/-- One scripted call into the binding surface (the registry-touching
entry points; `traceRays` never mutates the registries and is outside the
claims). -/
inductive RTOp where
  | createGeometry (arg : Option JSGeometryOptions)
  | createBLAS (arg : Option (List JSHandleObj))
  | createTLAS (arg : Option (List JSInstanceObj))
  | updateTLAS (arg : Option (JSHandleObj × Option (List JSInstanceObj)))
  | destroyGeometry (arg : Option JSHandleObj)
  | destroyBLAS (arg : Option JSHandleObj)
  | destroyTLAS (arg : Option JSHandleObj)

/-- State transition of one binding call. -/
def stepOp (s : RTState) (op : RTOp) : RTState :=
  match op with
  | .createGeometry a => (js_createGeometry s a).2.1
  | .createBLAS a => (js_createBLAS s a).2.1
  | .createTLAS a => (js_createTLAS s a).2.1
  | .updateTLAS a => (js_updateTLAS s a).1
  | .destroyGeometry a => (js_destroyGeometry s a).1
  | .destroyBLAS a => (js_destroyBLAS s a).1
  | .destroyTLAS a => (js_destroyTLAS s a).1

/-- Run a sequence of binding calls. -/
def runOps (s : RTState) : List RTOp → RTState
  | [] => s
  | op :: rest => runOps (stepOp s op) rest

/-- The geometry ids allocated by one call (nonempty only for a
successful `createGeometry`). -/
def geomAlloc (s : RTState) (op : RTOp) : List Nat :=
  match op with
  | .createGeometry a =>
    match (js_createGeometry s a).1 with
    | some w => [w.id]
    | none => []
  | _ => []

/-- The BLAS ids allocated by one call. -/
def blasAlloc (s : RTState) (op : RTOp) : List Nat :=
  match op with
  | .createBLAS a =>
    match (js_createBLAS s a).1 with
    | some w => [w.id]
    | none => []
  | _ => []

/-- The TLAS ids allocated by one call. -/
def tlasAlloc (s : RTState) (op : RTOp) : List Nat :=
  match op with
  | .createTLAS a =>
    match (js_createTLAS s a).1 with
    | some w => [w.id]
    | none => []
  | _ => []

/-- The ids (of one kind, given by `alloc`) allocated along a run, in
order. -/
def allocTrace (alloc : RTState → RTOp → List Nat) : RTState → List RTOp → List Nat
  | _, [] => []
  | s, op :: rest => alloc s op ++ allocTrace alloc (stepOp s op) rest

/-- No registry table contains an entry whose native backend pointer is
null. -/
def TablesNonNull (s : RTState) : Prop :=
  (∀ p ∈ s.geometries, p.2.native ≠ 0) ∧
  (∀ p ∈ s.blases, p.2.native ≠ 0) ∧
  (∀ p ∈ s.tlases, p.2.native ≠ 0)

/-! ## Concrete fixtures used by counterexamples and witnesses -/

/-- An `IRTBackend` implementation whose creations always succeed,
exercising the success paths of the bindings (the stub in the repository
never succeeds; platform backends are external implementations of the
same contract). -/
def alwaysOkBackend : IRTBackend where
  isSupported := true
  createGeometry := fun _ => { native := 1 }
  createBLAS := fun _ => { native := 1 }
  createTLAS := fun _ => { native := 1 }

/-- A well-formed `createGeometry` options object: one vec3 vertex, no
indices, defaulted stride and offset. -/
def goodGeomOptions : JSGeometryOptions :=
  { vertices := .buffer [1, 2, 3]
    indices := .undef
    vertexStride := none
    vertexOffset := none }

/-- The descriptor `js_createGeometry` builds from `goodGeomOptions`. -/
def goodGeomDesc : RTGeometryDesc :=
  { vertices := [1, 2, 3]
    vertexCount := 1
    vertexStride := 12
    vertexOffset := 0
    indices := none
    indexCount := 0 }

/-- A `createGeometry` call with `goodGeomOptions`. -/
def goodCreateOp : RTOp := .createGeometry (some goodGeomOptions)

/-- A state holding exactly one registered BLAS (id 1), over the
always-succeeding backend. -/
def oneBlasState : RTState :=
  { backend := some alwaysOkBackend
    nextGeometryId := 1
    nextBLASId := 2
    nextTLASId := 1
    geometries := []
    blases := [(1, { native := 5, id := 1 })]
    tlases := [] }

/-- An instance object whose `blas` references the never-issued id 2. -/
def staleBlasInst : JSInstanceObj :=
  { blas := { id := some 2 }
    transform := .undef
    instanceId := none
    mask := none
    flags := none }

/-- An instance object carrying explicit `mask` and `flags` values. -/
def maskedInst : JSInstanceObj :=
  { blas := { id := some 1 }
    transform := .undef
    instanceId := some 7
    mask := some 5
    flags := some 3 }

/-- The instance list `js_createTLAS oneBlasState (some [maskedInst])`
passes to the backend. -/
def maskedInstMarshaled : List RTTLASInstance :=
  [{ blas := { native := 5, id := 1 }
     transform := identityTransform
     instanceId := 7
     mask := 255
     flags := 0 }]

/-- `goodGeomOptions` with a present but zero-length indices buffer. -/
def emptyIndicesOptions : JSGeometryOptions :=
  { vertices := .buffer [1, 2, 3]
    indices := .buffer []
    vertexStride := none
    vertexOffset := none }

/-! ## Table lemmas -/

theorem tableFind_erase_self {α : Type} (k : Nat) (m : List (Nat × α)) :
    tableFind k (tableErase k m) = none := by
  induction m with
  | nil => rfl
  | cons p rest ih =>
    by_cases h : p.1 = k
    · simpa [tableErase, h]
    · simp [tableErase, tableFind, h, ih]

theorem mem_tableErase {α : Type} {k : Nat} {m : List (Nat × α)} {p : Nat × α}
    (hp : p ∈ tableErase k m) : p ∈ m := by
  induction m with
  | nil => simp [tableErase] at hp
  | cons q rest ih =>
    by_cases h : q.1 = k
    · simp only [tableErase, if_pos h] at hp
      exact List.mem_cons_of_mem q (ih hp)
    · simp only [tableErase, if_neg h, List.mem_cons] at hp
      rcases hp with hp | hp
      · exact hp ▸ List.mem_cons_self q rest
      · exact List.mem_cons_of_mem q (ih hp)

theorem mem_tableInsert {α : Type} {k : Nat} {v : α} {m : List (Nat × α)} {p : Nat × α}
    (hp : p ∈ tableInsert k v m) : p = (k, v) ∨ p ∈ m := by
  simp only [tableInsert, List.mem_cons, List.mem_filter] at hp
  rcases hp with hp | hp
  · exact Or.inl hp
  · exact Or.inr hp.1

theorem tableFind_eq_none_iff {α : Type} (k : Nat) (m : List (Nat × α)) :
    tableFind k m = none ↔ k ∉ tableKeys m := by
  induction m with
  | nil => simp [tableFind, tableKeys]
  | cons p rest ih =>
    by_cases h : p.1 = k
    · simp [tableFind, tableKeys, h]
    · have h' : ¬k = p.1 := fun hk => h hk.symm
      simp [tableFind, tableKeys, h, h', ih]

/-! ## Per-operation characterizations -/

theorem js_createGeometry_spec (s : RTState) (a : Option JSGeometryOptions) :
    ((js_createGeometry s a).1 = none ∧ (js_createGeometry s a).2.1 = s) ∨
    (∃ h : RTGeometryHandle, h.native ≠ 0 ∧
      (js_createGeometry s a).1 = some { kind := .geometry, id := s.nextGeometryId } ∧
      (js_createGeometry s a).2.1 =
        { s with nextGeometryId := (s.nextGeometryId + 1) % UINT32_MOD
                 geometries :=
                   tableInsert s.nextGeometryId { h with id := s.nextGeometryId } s.geometries }) := by
  unfold js_createGeometry
  dsimp only
  split
  · exact Or.inl ⟨rfl, rfl⟩
  split
  · exact Or.inl ⟨rfl, rfl⟩
  split
  · exact Or.inl ⟨rfl, rfl⟩
  split
  · exact Or.inl ⟨rfl, rfl⟩
  split
  · exact Or.inl ⟨rfl, rfl⟩
  rename_i hne
  exact Or.inr ⟨_, hne, rfl, rfl⟩

theorem js_createBLAS_spec (s : RTState) (a : Option (List JSHandleObj)) :
    ((js_createBLAS s a).1 = none ∧ (js_createBLAS s a).2.1 = s) ∨
    (∃ h : RTBLASHandle, h.native ≠ 0 ∧
      (js_createBLAS s a).1 = some { kind := .blas, id := s.nextBLASId } ∧
      (js_createBLAS s a).2.1 =
        { s with nextBLASId := (s.nextBLASId + 1) % UINT32_MOD
                 blases :=
                   tableInsert s.nextBLASId { h with id := s.nextBLASId } s.blases }) := by
  unfold js_createBLAS
  dsimp only
  split
  · exact Or.inl ⟨rfl, rfl⟩
  split
  · exact Or.inl ⟨rfl, rfl⟩
  split
  · exact Or.inl ⟨rfl, rfl⟩
  split
  · exact Or.inl ⟨rfl, rfl⟩
  split
  · exact Or.inl ⟨rfl, rfl⟩
  split
  · exact Or.inl ⟨rfl, rfl⟩
  rename_i hne
  exact Or.inr ⟨_, hne, rfl, rfl⟩

theorem js_createTLAS_spec (s : RTState) (a : Option (List JSInstanceObj)) :
    ((js_createTLAS s a).1 = none ∧ (js_createTLAS s a).2.1 = s) ∨
    (∃ h : RTTLASHandle, h.native ≠ 0 ∧
      (js_createTLAS s a).1 = some { kind := .tlas, id := s.nextTLASId } ∧
      (js_createTLAS s a).2.1 =
        { s with nextTLASId := (s.nextTLASId + 1) % UINT32_MOD
                 tlases :=
                   tableInsert s.nextTLASId { h with id := s.nextTLASId } s.tlases }) := by
  unfold js_createTLAS
  dsimp only
  split
  · exact Or.inl ⟨rfl, rfl⟩
  split
  · exact Or.inl ⟨rfl, rfl⟩
  split
  · exact Or.inl ⟨rfl, rfl⟩
  split
  · exact Or.inl ⟨rfl, rfl⟩
  split
  · exact Or.inl ⟨rfl, rfl⟩
  split
  · exact Or.inl ⟨rfl, rfl⟩
  rename_i hne
  exact Or.inr ⟨_, hne, rfl, rfl⟩

theorem js_updateTLAS_state (s : RTState) (a : Option (JSHandleObj × Option (List JSInstanceObj))) :
    (js_updateTLAS s a).1 = s := by
  unfold js_updateTLAS
  repeat' split
  all_goals rfl

theorem js_destroyGeometry_spec (s : RTState) (a : Option JSHandleObj) :
    (js_destroyGeometry s a).1 = s ∨
    (∃ k, (js_destroyGeometry s a).1 = { s with geometries := tableErase k s.geometries }) := by
  unfold js_destroyGeometry
  dsimp only
  split
  · exact Or.inl rfl
  split
  · exact Or.inl rfl
  exact Or.inr ⟨_, rfl⟩

theorem js_destroyBLAS_spec (s : RTState) (a : Option JSHandleObj) :
    (js_destroyBLAS s a).1 = s ∨
    (∃ k, (js_destroyBLAS s a).1 = { s with blases := tableErase k s.blases }) := by
  unfold js_destroyBLAS
  dsimp only
  split
  · exact Or.inl rfl
  split
  · exact Or.inl rfl
  exact Or.inr ⟨_, rfl⟩

theorem js_destroyTLAS_spec (s : RTState) (a : Option JSHandleObj) :
    (js_destroyTLAS s a).1 = s ∨
    (∃ k, (js_destroyTLAS s a).1 = { s with tlases := tableErase k s.tlases }) := by
  unfold js_destroyTLAS
  dsimp only
  split
  · exact Or.inl rfl
  split
  · exact Or.inl rfl
  exact Or.inr ⟨_, rfl⟩

theorem mem_tableKeys_insert {α : Type} {k kid : Nat} {v : α} {m : List (Nat × α)}
    (h : k ∈ tableKeys (tableInsert kid v m)) : k = kid ∨ k ∈ tableKeys m := by
  simp only [tableKeys, List.mem_map] at h
  rcases h with ⟨p, hp, hk⟩
  rcases mem_tableInsert hp with hp | hp
  · exact Or.inl (by rw [← hk, hp])
  · exact Or.inr (by simp only [tableKeys, List.mem_map]; exact ⟨p, hp, hk⟩)

theorem mem_tableKeys_erase {α : Type} {k kid : Nat} {m : List (Nat × α)}
    (h : k ∈ tableKeys (tableErase kid m)) : k ∈ tableKeys m := by
  simp only [tableKeys, List.mem_map] at h ⊢
  rcases h with ⟨p, hp, hk⟩
  exact ⟨p, mem_tableErase hp, hk⟩

theorem stepOp_backend (s : RTState) (op : RTOp) : (stepOp s op).backend = s.backend := by
  cases op with
  | createGeometry a =>
    rcases js_createGeometry_spec s a with ⟨_, h2⟩ | ⟨h, _, _, h2⟩ <;> simp [stepOp, h2]
  | createBLAS a =>
    rcases js_createBLAS_spec s a with ⟨_, h2⟩ | ⟨h, _, _, h2⟩ <;> simp [stepOp, h2]
  | createTLAS a =>
    rcases js_createTLAS_spec s a with ⟨_, h2⟩ | ⟨h, _, _, h2⟩ <;> simp [stepOp, h2]
  | updateTLAS a => simp [stepOp, js_updateTLAS_state]
  | destroyGeometry a =>
    rcases js_destroyGeometry_spec s a with h2 | ⟨k, h2⟩ <;> simp [stepOp, h2]
  | destroyBLAS a =>
    rcases js_destroyBLAS_spec s a with h2 | ⟨k, h2⟩ <;> simp [stepOp, h2]
  | destroyTLAS a =>
    rcases js_destroyTLAS_spec s a with h2 | ⟨k, h2⟩ <;> simp [stepOp, h2]

/-- How one binding call affects the geometry allocator, the geometry
table keys and the list of allocated geometry ids: either nothing is
allocated and the allocator is untouched, or exactly the current
allocator value is allocated and the allocator advances by one
(mod `2^32`). -/
theorem geomStep_spec (s : RTState) (op : RTOp) :
    (geomAlloc s op = [] ∧ (stepOp s op).nextGeometryId = s.nextGeometryId ∧
       ∀ k ∈ tableKeys (stepOp s op).geometries, k ∈ tableKeys s.geometries) ∨
    (geomAlloc s op = [s.nextGeometryId] ∧
       (stepOp s op).nextGeometryId = (s.nextGeometryId + 1) % UINT32_MOD ∧
       ∀ k ∈ tableKeys (stepOp s op).geometries,
         k = s.nextGeometryId ∨ k ∈ tableKeys s.geometries) := by
  cases op with
  | createGeometry a =>
    rcases js_createGeometry_spec s a with ⟨h1, h2⟩ | ⟨h, hne, h1, h2⟩
    · exact Or.inl ⟨by simp [geomAlloc, h1], by simp [stepOp, h2],
        by intro k hk; simpa [stepOp, h2] using hk⟩
    · refine Or.inr ⟨by simp [geomAlloc, h1], by simp [stepOp, h2], ?_⟩
      intro k hk
      simp only [stepOp, h2] at hk
      exact mem_tableKeys_insert hk
  | createBLAS a =>
    rcases js_createBLAS_spec s a with ⟨h1, h2⟩ | ⟨h, hne, h1, h2⟩ <;>
      exact Or.inl ⟨rfl, by simp [stepOp, h2], by intro k hk; simpa [stepOp, h2] using hk⟩
  | createTLAS a =>
    rcases js_createTLAS_spec s a with ⟨h1, h2⟩ | ⟨h, hne, h1, h2⟩ <;>
      exact Or.inl ⟨rfl, by simp [stepOp, h2], by intro k hk; simpa [stepOp, h2] using hk⟩
  | updateTLAS a =>
    exact Or.inl ⟨rfl, by simp [stepOp, js_updateTLAS_state],
      by intro k hk; simpa [stepOp, js_updateTLAS_state] using hk⟩
  | destroyGeometry a =>
    rcases js_destroyGeometry_spec s a with h2 | ⟨kid, h2⟩
    · exact Or.inl ⟨rfl, by simp [stepOp, h2], by intro k hk; simpa [stepOp, h2] using hk⟩
    · refine Or.inl ⟨rfl, by simp [stepOp, h2], ?_⟩
      intro k hk
      simp only [stepOp, h2] at hk
      exact mem_tableKeys_erase hk
  | destroyBLAS a =>
    rcases js_destroyBLAS_spec s a with h2 | ⟨kid, h2⟩ <;>
      exact Or.inl ⟨rfl, by simp [stepOp, h2], by intro k hk; simpa [stepOp, h2] using hk⟩
  | destroyTLAS a =>
    rcases js_destroyTLAS_spec s a with h2 | ⟨kid, h2⟩ <;>
      exact Or.inl ⟨rfl, by simp [stepOp, h2], by intro k hk; simpa [stepOp, h2] using hk⟩

/-- BLAS counterpart of `geomStep_spec`. -/
theorem blasStep_spec (s : RTState) (op : RTOp) :
    (blasAlloc s op = [] ∧ (stepOp s op).nextBLASId = s.nextBLASId ∧
       ∀ k ∈ tableKeys (stepOp s op).blases, k ∈ tableKeys s.blases) ∨
    (blasAlloc s op = [s.nextBLASId] ∧
       (stepOp s op).nextBLASId = (s.nextBLASId + 1) % UINT32_MOD ∧
       ∀ k ∈ tableKeys (stepOp s op).blases,
         k = s.nextBLASId ∨ k ∈ tableKeys s.blases) := by
  cases op with
  | createGeometry a =>
    rcases js_createGeometry_spec s a with ⟨h1, h2⟩ | ⟨h, hne, h1, h2⟩ <;>
      exact Or.inl ⟨rfl, by simp [stepOp, h2], by intro k hk; simpa [stepOp, h2] using hk⟩
  | createBLAS a =>
    rcases js_createBLAS_spec s a with ⟨h1, h2⟩ | ⟨h, hne, h1, h2⟩
    · exact Or.inl ⟨by simp [blasAlloc, h1], by simp [stepOp, h2],
        by intro k hk; simpa [stepOp, h2] using hk⟩
    · refine Or.inr ⟨by simp [blasAlloc, h1], by simp [stepOp, h2], ?_⟩
      intro k hk
      simp only [stepOp, h2] at hk
      exact mem_tableKeys_insert hk
  | createTLAS a =>
    rcases js_createTLAS_spec s a with ⟨h1, h2⟩ | ⟨h, hne, h1, h2⟩ <;>
      exact Or.inl ⟨rfl, by simp [stepOp, h2], by intro k hk; simpa [stepOp, h2] using hk⟩
  | updateTLAS a =>
    exact Or.inl ⟨rfl, by simp [stepOp, js_updateTLAS_state],
      by intro k hk; simpa [stepOp, js_updateTLAS_state] using hk⟩
  | destroyGeometry a =>
    rcases js_destroyGeometry_spec s a with h2 | ⟨kid, h2⟩ <;>
      exact Or.inl ⟨rfl, by simp [stepOp, h2], by intro k hk; simpa [stepOp, h2] using hk⟩
  | destroyBLAS a =>
    rcases js_destroyBLAS_spec s a with h2 | ⟨kid, h2⟩
    · exact Or.inl ⟨rfl, by simp [stepOp, h2], by intro k hk; simpa [stepOp, h2] using hk⟩
    · refine Or.inl ⟨rfl, by simp [stepOp, h2], ?_⟩
      intro k hk
      simp only [stepOp, h2] at hk
      exact mem_tableKeys_erase hk
  | destroyTLAS a =>
    rcases js_destroyTLAS_spec s a with h2 | ⟨kid, h2⟩ <;>
      exact Or.inl ⟨rfl, by simp [stepOp, h2], by intro k hk; simpa [stepOp, h2] using hk⟩

/-- TLAS counterpart of `geomStep_spec`. -/
theorem tlasStep_spec (s : RTState) (op : RTOp) :
    (tlasAlloc s op = [] ∧ (stepOp s op).nextTLASId = s.nextTLASId ∧
       ∀ k ∈ tableKeys (stepOp s op).tlases, k ∈ tableKeys s.tlases) ∨
    (tlasAlloc s op = [s.nextTLASId] ∧
       (stepOp s op).nextTLASId = (s.nextTLASId + 1) % UINT32_MOD ∧
       ∀ k ∈ tableKeys (stepOp s op).tlases,
         k = s.nextTLASId ∨ k ∈ tableKeys s.tlases) := by
  cases op with
  | createGeometry a =>
    rcases js_createGeometry_spec s a with ⟨h1, h2⟩ | ⟨h, hne, h1, h2⟩ <;>
      exact Or.inl ⟨rfl, by simp [stepOp, h2], by intro k hk; simpa [stepOp, h2] using hk⟩
  | createBLAS a =>
    rcases js_createBLAS_spec s a with ⟨h1, h2⟩ | ⟨h, hne, h1, h2⟩ <;>
      exact Or.inl ⟨rfl, by simp [stepOp, h2], by intro k hk; simpa [stepOp, h2] using hk⟩
  | createTLAS a =>
    rcases js_createTLAS_spec s a with ⟨h1, h2⟩ | ⟨h, hne, h1, h2⟩
    · exact Or.inl ⟨by simp [tlasAlloc, h1], by simp [stepOp, h2],
        by intro k hk; simpa [stepOp, h2] using hk⟩
    · refine Or.inr ⟨by simp [tlasAlloc, h1], by simp [stepOp, h2], ?_⟩
      intro k hk
      simp only [stepOp, h2] at hk
      exact mem_tableKeys_insert hk
  | updateTLAS a =>
    exact Or.inl ⟨rfl, by simp [stepOp, js_updateTLAS_state],
      by intro k hk; simpa [stepOp, js_updateTLAS_state] using hk⟩
  | destroyGeometry a =>
    rcases js_destroyGeometry_spec s a with h2 | ⟨kid, h2⟩ <;>
      exact Or.inl ⟨rfl, by simp [stepOp, h2], by intro k hk; simpa [stepOp, h2] using hk⟩
  | destroyBLAS a =>
    rcases js_destroyBLAS_spec s a with h2 | ⟨kid, h2⟩ <;>
      exact Or.inl ⟨rfl, by simp [stepOp, h2], by intro k hk; simpa [stepOp, h2] using hk⟩
  | destroyTLAS a =>
    rcases js_destroyTLAS_spec s a with h2 | ⟨kid, h2⟩
    · exact Or.inl ⟨rfl, by simp [stepOp, h2], by intro k hk; simpa [stepOp, h2] using hk⟩
    · refine Or.inl ⟨rfl, by simp [stepOp, h2], ?_⟩
      intro k hk
      simp only [stepOp, h2] at hk
      exact mem_tableKeys_erase hk

/-- Generic allocator lemma: if each step either allocates nothing and
keeps the allocator, or allocates exactly the current allocator value and
advances it by one mod `2^32`, then as long as no wraparound occurs the
allocated ids form the contiguous strictly increasing range starting at
the initial allocator value. -/
theorem allocTrace_eq_range' (next : RTState → Nat) (alloc : RTState → RTOp → List Nat)
    (hstep : ∀ s op,
      (alloc s op = [] ∧ next (stepOp s op) = next s) ∨
      (alloc s op = [next s] ∧ next (stepOp s op) = (next s + 1) % UINT32_MOD)) :
    ∀ (ops : List RTOp) (s : RTState),
      next s + (allocTrace alloc s ops).length ≤ UINT32_MOD →
      allocTrace alloc s ops = List.range' (next s) (allocTrace alloc s ops).length := by
  intro ops
  induction ops with
  | nil => intro s _; rfl
  | cons op rest ih =>
    intro s hbound
    rcases hstep s op with ⟨ha, hn⟩ | ⟨ha, hn⟩
    · have e : allocTrace alloc s (op :: rest) = allocTrace alloc (stepOp s op) rest := by
        show alloc s op ++ _ = _
        rw [ha, List.nil_append]
      rw [e] at hbound ⊢
      rw [← hn] at hbound ⊢
      exact ih (stepOp s op) hbound
    · have e : allocTrace alloc s (op :: rest) =
          next s :: allocTrace alloc (stepOp s op) rest := by
        show alloc s op ++ _ = _
        rw [ha, List.singleton_append]
      rw [e] at hbound ⊢
      rw [List.length_cons] at hbound ⊢
      rw [List.range'_succ]
      by_cases h0 : (allocTrace alloc (stepOp s op) rest).length = 0
      · have hnil : allocTrace alloc (stepOp s op) rest = [] := List.length_eq_zero.mp h0
        rw [hnil]
        rfl
      · have hlt : next s + 1 < UINT32_MOD := by omega
        have hb' : next (stepOp s op) + (allocTrace alloc (stepOp s op) rest).length ≤
            UINT32_MOD := by
          rw [hn, Nat.mod_eq_of_lt hlt]
          omega
        have hrest := ih (stepOp s op) hb'
        rw [hn, Nat.mod_eq_of_lt hlt] at hrest
        rw [← hrest]

/-- Generic registry-key lemma: every key present after a run was either
present initially or was allocated during the run. -/
theorem tableKeys_runOps_sub (alloc : RTState → RTOp → List Nat) (keys : RTState → List Nat)
    (hstep : ∀ s op k, k ∈ keys (stepOp s op) → k ∈ alloc s op ∨ k ∈ keys s) :
    ∀ (ops : List RTOp) (s : RTState) (k : Nat),
      k ∈ keys (runOps s ops) → k ∈ keys s ∨ k ∈ allocTrace alloc s ops := by
  intro ops
  induction ops with
  | nil => intro s k hk; exact Or.inl hk
  | cons op rest ih =>
    intro s k hk
    rcases ih (stepOp s op) k hk with hk' | hk'
    · rcases hstep s op k hk' with h | h
      · exact Or.inr (by simp only [allocTrace, List.mem_append]; exact Or.inl h)
      · exact Or.inl h
    · exact Or.inr (by simp only [allocTrace, List.mem_append]; exact Or.inr hk')

/-- The disjunction shape `allocTrace_eq_range'` needs, for geometries. -/
theorem geomStep_next (s : RTState) (op : RTOp) :
    (geomAlloc s op = [] ∧ (stepOp s op).nextGeometryId = s.nextGeometryId) ∨
    (geomAlloc s op = [s.nextGeometryId] ∧
      (stepOp s op).nextGeometryId = (s.nextGeometryId + 1) % UINT32_MOD) := by
  rcases geomStep_spec s op with ⟨h1, h2, _⟩ | ⟨h1, h2, _⟩
  · exact Or.inl ⟨h1, h2⟩
  · exact Or.inr ⟨h1, h2⟩

/-- The disjunction shape `allocTrace_eq_range'` needs, for BLASes. -/
theorem blasStep_next (s : RTState) (op : RTOp) :
    (blasAlloc s op = [] ∧ (stepOp s op).nextBLASId = s.nextBLASId) ∨
    (blasAlloc s op = [s.nextBLASId] ∧
      (stepOp s op).nextBLASId = (s.nextBLASId + 1) % UINT32_MOD) := by
  rcases blasStep_spec s op with ⟨h1, h2, _⟩ | ⟨h1, h2, _⟩
  · exact Or.inl ⟨h1, h2⟩
  · exact Or.inr ⟨h1, h2⟩

/-- The disjunction shape `allocTrace_eq_range'` needs, for TLASes. -/
theorem tlasStep_next (s : RTState) (op : RTOp) :
    (tlasAlloc s op = [] ∧ (stepOp s op).nextTLASId = s.nextTLASId) ∨
    (tlasAlloc s op = [s.nextTLASId] ∧
      (stepOp s op).nextTLASId = (s.nextTLASId + 1) % UINT32_MOD) := by
  rcases tlasStep_spec s op with ⟨h1, h2, _⟩ | ⟨h1, h2, _⟩
  · exact Or.inl ⟨h1, h2⟩
  · exact Or.inr ⟨h1, h2⟩





theorem js_createGeometry_goodEval (s : RTState)
    (hbe : s.backend = some alwaysOkBackend) :
    js_createGeometry s (some goodGeomOptions) =
      (some { kind := .geometry, id := s.nextGeometryId },
       { s with nextGeometryId := (s.nextGeometryId + 1) % UINT32_MOD
                geometries := tableInsert s.nextGeometryId
                  { native := 1, id := s.nextGeometryId } s.geometries },
       [BackendCall.createGeometry goodGeomDesc]) := by
  unfold js_createGeometry
  rw [hbe]
  rfl

/-- Running `n` always-succeeding `createGeometry` calls from allocator
value `m < 2^32` allocates exactly the ids `(m + i) % 2^32`. -/
theorem allocTrace_replicate_goodCreate :
    ∀ (n : Nat) (s : RTState), s.backend = some alwaysOkBackend →
      s.nextGeometryId < UINT32_MOD →
      allocTrace geomAlloc s (List.replicate n goodCreateOp) =
        (List.range n).map (fun i => (s.nextGeometryId + i) % UINT32_MOD) := by
  intro n
  induction n with
  | zero => intro s _ _; rfl
  | succ n ih =>
    intro s hbe hlt
    rw [List.replicate_succ]
    show geomAlloc s goodCreateOp ++
        allocTrace geomAlloc (stepOp s goodCreateOp) (List.replicate n goodCreateOp) = _
    have heval := js_createGeometry_goodEval s hbe
    have ha : geomAlloc s goodCreateOp = [s.nextGeometryId] := by
      simp [geomAlloc, goodCreateOp, heval]
    have hs : stepOp s goodCreateOp =
        { s with nextGeometryId := (s.nextGeometryId + 1) % UINT32_MOD
                 geometries := tableInsert s.nextGeometryId
                   { native := 1, id := s.nextGeometryId } s.geometries } := by
      simp [stepOp, goodCreateOp, heval]
    rw [ha, hs]
    rw [ih _ (by simp [hbe]) (Nat.mod_lt _ (by norm_num [UINT32_MOD]))]
    rw [List.range_succ_eq_map, List.map_cons, List.map_map]
    rw [List.singleton_append]
    congr 1
    · rw [Nat.add_zero, Nat.mod_eq_of_lt hlt]
    · apply List.map_congr_left
      intro i _
      show ((s.nextGeometryId + 1) % UINT32_MOD + i) % UINT32_MOD = _
      rw [Nat.mod_add_mod]
      have e : s.nextGeometryId + 1 + i = s.nextGeometryId + (i + 1) := by omega
      rw [e]
      rfl

/-! ## Claim C4 -/

/-- Claim C4 counterexample: the claim "ids allocated by successful
creations are strictly increasing, start at 1, and are never repeated
within one process lifetime" fails at the concrete input consisting of
the freshly initialised state over an always-succeeding backend and
`2^32 + 1` successful `createGeometry` calls: the `uint32_t` allocator
wraps and the id 1 is allocated twice, so the allocated-id list is not
duplicate-free. -/
theorem rt_C4_counterexample :
    ¬ (allocTrace geomAlloc (initRTState alwaysOkBackend)
        (List.replicate (UINT32_MOD + 1) goodCreateOp)).Nodup := by
  intro hnd
  have hL := allocTrace_replicate_goodCreate (UINT32_MOD + 1)
    (initRTState alwaysOkBackend) rfl (by decide)
  have h1 : (initRTState alwaysOkBackend).nextGeometryId = 1 := rfl
  rw [h1] at hL
  rw [hL, List.range_succ, List.map_append, List.nodup_append] at hnd
  have mem1 : (1 : Nat) ∈ List.map (fun i => (1 + i) % UINT32_MOD) (List.range UINT32_MOD) :=
    List.mem_map.mpr ⟨0, List.mem_range.mpr (by decide), by decide⟩
  have mem2 : (1 : Nat) ∈ List.map (fun i => (1 + i) % UINT32_MOD) [UINT32_MOD] := by
    simp only [List.map_cons, List.map_nil, List.mem_singleton]
    decide
  exact hnd.2.2 mem1 mem2

/-- Claim C4 (amended): for every backend and every sequence of create
and destroy calls from a fresh state in which fewer than `2^32` creations
of one resource kind succeed, the ids allocated for that kind are exactly
the contiguous range 1, 2, 3, ...: strictly increasing, starting at 1,
never repeated (the 32-bit allocator wraps once `2^32` creations of one
kind succeed, at which point ids repeat — see the counterexample); and
`cleanupRTBindings` resets all three allocators to 1. -/
theorem rt_C4_ids_monotone :
    (∀ (be : IRTBackend) (ops : List RTOp),
        1 + (allocTrace geomAlloc (initRTState be) ops).length ≤ UINT32_MOD →
        allocTrace geomAlloc (initRTState be) ops =
            List.range' 1 (allocTrace geomAlloc (initRTState be) ops).length ∧
        (allocTrace geomAlloc (initRTState be) ops).Pairwise (· < ·) ∧
        (allocTrace geomAlloc (initRTState be) ops).Nodup) ∧
    (∀ (be : IRTBackend) (ops : List RTOp),
        1 + (allocTrace blasAlloc (initRTState be) ops).length ≤ UINT32_MOD →
        allocTrace blasAlloc (initRTState be) ops =
            List.range' 1 (allocTrace blasAlloc (initRTState be) ops).length ∧
        (allocTrace blasAlloc (initRTState be) ops).Pairwise (· < ·) ∧
        (allocTrace blasAlloc (initRTState be) ops).Nodup) ∧
    (∀ (be : IRTBackend) (ops : List RTOp),
        1 + (allocTrace tlasAlloc (initRTState be) ops).length ≤ UINT32_MOD →
        allocTrace tlasAlloc (initRTState be) ops =
            List.range' 1 (allocTrace tlasAlloc (initRTState be) ops).length ∧
        (allocTrace tlasAlloc (initRTState be) ops).Pairwise (· < ·) ∧
        (allocTrace tlasAlloc (initRTState be) ops).Nodup) ∧
    (∀ s : RTState,
        (cleanupRTBindings s).1.nextGeometryId = 1 ∧
        (cleanupRTBindings s).1.nextBLASId = 1 ∧
        (cleanupRTBindings s).1.nextTLASId = 1) := by
  refine ⟨?_, ?_, ?_, fun s => ⟨rfl, rfl, rfl⟩⟩
  · intro be ops hb
    have h := allocTrace_eq_range' (fun st => st.nextGeometryId) geomAlloc
      geomStep_next ops (initRTState be) hb
    exact ⟨h, by rw [h]; exact List.pairwise_lt_range' 1 _,
      by rw [h]; exact List.nodup_range' 1 _⟩
  · intro be ops hb
    have h := allocTrace_eq_range' (fun st => st.nextBLASId) blasAlloc
      blasStep_next ops (initRTState be) hb
    exact ⟨h, by rw [h]; exact List.pairwise_lt_range' 1 _,
      by rw [h]; exact List.nodup_range' 1 _⟩
  · intro be ops hb
    have h := allocTrace_eq_range' (fun st => st.nextTLASId) tlasAlloc
      tlasStep_next ops (initRTState be) hb
    exact ⟨h, by rw [h]; exact List.pairwise_lt_range' 1 _,
      by rw [h]; exact List.nodup_range' 1 _⟩

/-- Witness for `rt_C4_ids_monotone` at a concrete two-call run. -/
theorem rt_C4_witness :
    1 + (allocTrace geomAlloc (initRTState alwaysOkBackend)
          [goodCreateOp, goodCreateOp]).length ≤ UINT32_MOD ∧
    allocTrace geomAlloc (initRTState alwaysOkBackend)
        [goodCreateOp, goodCreateOp] = [1, 2] := by
  refine ⟨by decide, ?_⟩
  have h := (rt_C4_ids_monotone.1 alwaysOkBackend
    [goodCreateOp, goodCreateOp] (by decide)).1
  rw [h]
  decide

/-! ## Failure-path helpers -/

theorem resolveGeometries_none {s : RTState} {objs : List JSHandleObj} {o : JSHandleObj}
    (ho : o ∈ objs) (hf : tableFind (getGeometryId o) s.geometries = none) :
    resolveGeometries s objs = none := by
  induction objs with
  | nil => cases ho
  | cons a rest ih =>
    rcases List.mem_cons.mp ho with h | h
    · subst h
      unfold resolveGeometries
      rw [hf]
    · unfold resolveGeometries
      cases hfa : tableFind (getGeometryId a) s.geometries with
      | none => rfl
      | some hh => rw [ih h]

theorem marshalInstance_none {s : RTState} {o : JSInstanceObj}
    (hf : tableFind (getBLASId o.blas) s.blases = none) :
    marshalInstance s o = none := by
  unfold marshalInstance
  rw [hf]

theorem marshalInstances_none {s : RTState} {objs : List JSInstanceObj} {o : JSInstanceObj}
    (ho : o ∈ objs) (hm : marshalInstance s o = none) :
    marshalInstances s objs = none := by
  induction objs with
  | nil => cases ho
  | cons a rest ih =>
    rcases List.mem_cons.mp ho with h | h
    · subst h
      unfold marshalInstances
      rw [hm]
    · unfold marshalInstances
      cases hfa : marshalInstance s a with
      | none => rfl
      | some inst => rw [ih h]

theorem js_createBLAS_resolve_fail (s : RTState) (objs : List JSHandleObj)
    (hres : resolveGeometries s objs = none) :
    js_createBLAS s (some objs) = (none, s, []) := by
  unfold js_createBLAS
  dsimp only
  split
  · rfl
  split
  · rfl
  split
  · rfl
  split
  · rfl
  rename_i handles heq
  rw [hres] at heq
  cases heq

theorem js_createTLAS_marshal_fail (s : RTState) (objs : List JSInstanceObj)
    (hm : marshalInstances s objs = none) :
    js_createTLAS s (some objs) = (none, s, []) := by
  unfold js_createTLAS
  dsimp only
  split
  · rfl
  split
  · rfl
  split
  · rfl
  split
  · rfl
  rename_i insts heq
  rw [hm] at heq
  cases heq

theorem zero_not_in_geomKeys (be : IRTBackend) (ops : List RTOp)
    (hb : 1 + (allocTrace geomAlloc (initRTState be) ops).length ≤ UINT32_MOD) :
    0 ∉ tableKeys (runOps (initRTState be) ops).geometries := by
  intro hk
  have hstep : ∀ s op k, k ∈ tableKeys (stepOp s op).geometries →
      k ∈ geomAlloc s op ∨ k ∈ tableKeys s.geometries := by
    intro s op k hkk
    rcases geomStep_spec s op with ⟨h1, _, h3⟩ | ⟨h1, _, h3⟩
    · exact Or.inr (h3 k hkk)
    · rcases h3 k hkk with hke | h
      · refine Or.inl ?_
        rw [h1, hke]
        exact List.mem_singleton_self _
      · exact Or.inr h
  rcases tableKeys_runOps_sub geomAlloc (fun st => tableKeys st.geometries) hstep ops
      (initRTState be) 0 hk with h | h
  · simp [initRTState, tableKeys] at h
  · rw [allocTrace_eq_range' (fun st => st.nextGeometryId) geomAlloc geomStep_next ops
      (initRTState be) hb] at h
    have h2 : (1 : Nat) ≤ 0 := (List.mem_range'_1.mp h).1
    exact absurd h2 (by decide)

theorem zero_not_in_blasKeys (be : IRTBackend) (ops : List RTOp)
    (hb : 1 + (allocTrace blasAlloc (initRTState be) ops).length ≤ UINT32_MOD) :
    0 ∉ tableKeys (runOps (initRTState be) ops).blases := by
  intro hk
  have hstep : ∀ s op k, k ∈ tableKeys (stepOp s op).blases →
      k ∈ blasAlloc s op ∨ k ∈ tableKeys s.blases := by
    intro s op k hkk
    rcases blasStep_spec s op with ⟨h1, _, h3⟩ | ⟨h1, _, h3⟩
    · exact Or.inr (h3 k hkk)
    · rcases h3 k hkk with hke | h
      · refine Or.inl ?_
        rw [h1, hke]
        exact List.mem_singleton_self _
      · exact Or.inr h
  rcases tableKeys_runOps_sub blasAlloc (fun st => tableKeys st.blases) hstep ops
      (initRTState be) 0 hk with h | h
  · simp [initRTState, tableKeys] at h
  · rw [allocTrace_eq_range' (fun st => st.nextBLASId) blasAlloc blasStep_next ops
      (initRTState be) hb] at h
    have h2 : (1 : Nat) ≤ 0 := (List.mem_range'_1.mp h).1
    exact absurd h2 (by decide)

theorem zero_not_in_tlasKeys (be : IRTBackend) (ops : List RTOp)
    (hb : 1 + (allocTrace tlasAlloc (initRTState be) ops).length ≤ UINT32_MOD) :
    0 ∉ tableKeys (runOps (initRTState be) ops).tlases := by
  intro hk
  have hstep : ∀ s op k, k ∈ tableKeys (stepOp s op).tlases →
      k ∈ tlasAlloc s op ∨ k ∈ tableKeys s.tlases := by
    intro s op k hkk
    rcases tlasStep_spec s op with ⟨h1, _, h3⟩ | ⟨h1, _, h3⟩
    · exact Or.inr (h3 k hkk)
    · rcases h3 k hkk with hke | h
      · refine Or.inl ?_
        rw [h1, hke]
        exact List.mem_singleton_self _
      · exact Or.inr h
  rcases tableKeys_runOps_sub tlasAlloc (fun st => tableKeys st.tlases) hstep ops
      (initRTState be) 0 hk with h | h
  · simp [initRTState, tableKeys] at h
  · rw [allocTrace_eq_range' (fun st => st.nextTLASId) tlasAlloc tlasStep_next ops
      (initRTState be) hb] at h
    have h2 : (1 : Nat) ≤ 0 := (List.mem_range'_1.mp h).1
    exact absurd h2 (by decide)

/-! ## Claim C10 -/

/-- Claim C10 counterexample: "Id 0 is never allocated" fails at the
concrete input consisting of the freshly initialised state over an
always-succeeding backend and exactly `2^32` successful `createGeometry`
calls: the `uint32_t` allocator wraps and the `2^32`-th creation is
handed id 0. -/
theorem rt_C10_counterexample :
    0 ∈ allocTrace geomAlloc (initRTState alwaysOkBackend)
        (List.replicate UINT32_MOD goodCreateOp) := by
  have hL := allocTrace_replicate_goodCreate UINT32_MOD
    (initRTState alwaysOkBackend) rfl (by decide)
  have h1 : (initRTState alwaysOkBackend).nextGeometryId = 1 := rfl
  rw [h1] at hL
  rw [hL]
  exact List.mem_map.mpr ⟨UINT32_MOD - 1, List.mem_range.mpr (by decide), by decide⟩

/-- Claim C10 (amended): as long as fewer than `2^32` creations of a kind
have succeeded since initialisation, id 0 is never present in that kind's
registry table; a script handle object whose `_id` property is missing or
undefined resolves to id 0; passing such an object to any destroy
operation is a silent no-op (state unchanged, no backend call), and
referencing it in `createBLAS` or `createTLAS` fails the whole call
(absent value, state unchanged, no backend call). -/
theorem rt_C10_id_zero :
    getGeometryId { id := none } = 0 ∧
    getBLASId { id := none } = 0 ∧
    getTLASId { id := none } = 0 ∧
    (∀ (be : IRTBackend) (ops : List RTOp),
        1 + (allocTrace geomAlloc (initRTState be) ops).length ≤ UINT32_MOD →
        0 ∉ tableKeys (runOps (initRTState be) ops).geometries) ∧
    (∀ (be : IRTBackend) (ops : List RTOp),
        1 + (allocTrace blasAlloc (initRTState be) ops).length ≤ UINT32_MOD →
        0 ∉ tableKeys (runOps (initRTState be) ops).blases) ∧
    (∀ (be : IRTBackend) (ops : List RTOp),
        1 + (allocTrace tlasAlloc (initRTState be) ops).length ≤ UINT32_MOD →
        0 ∉ tableKeys (runOps (initRTState be) ops).tlases) ∧
    (∀ s : RTState, 0 ∉ tableKeys s.geometries →
        js_destroyGeometry s (some { id := none }) = (s, [])) ∧
    (∀ s : RTState, 0 ∉ tableKeys s.blases →
        js_destroyBLAS s (some { id := none }) = (s, [])) ∧
    (∀ s : RTState, 0 ∉ tableKeys s.tlases →
        js_destroyTLAS s (some { id := none }) = (s, [])) ∧
    (∀ (s : RTState) (objs : List JSHandleObj),
        ({ id := none } : JSHandleObj) ∈ objs → 0 ∉ tableKeys s.geometries →
        js_createBLAS s (some objs) = (none, s, [])) ∧
    (∀ (s : RTState) (objs : List JSInstanceObj) (o : JSInstanceObj),
        o ∈ objs → o.blas = { id := none } → 0 ∉ tableKeys s.blases →
        js_createTLAS s (some objs) = (none, s, [])) := by
  refine ⟨rfl, rfl, rfl, zero_not_in_geomKeys, zero_not_in_blasKeys, zero_not_in_tlasKeys,
    ?_, ?_, ?_, ?_, ?_⟩
  · intro s h0
    have hf : tableFind (getGeometryId { id := none }) s.geometries = none :=
      (tableFind_eq_none_iff _ _).mpr h0
    unfold js_destroyGeometry
    dsimp only
    rw [hf]
  · intro s h0
    have hf : tableFind (getBLASId { id := none }) s.blases = none :=
      (tableFind_eq_none_iff _ _).mpr h0
    unfold js_destroyBLAS
    dsimp only
    rw [hf]
  · intro s h0
    have hf : tableFind (getTLASId { id := none }) s.tlases = none :=
      (tableFind_eq_none_iff _ _).mpr h0
    unfold js_destroyTLAS
    dsimp only
    rw [hf]
  · intro s objs ho h0
    have hf : tableFind (getGeometryId { id := none }) s.geometries = none :=
      (tableFind_eq_none_iff _ _).mpr h0
    exact js_createBLAS_resolve_fail s objs (resolveGeometries_none ho hf)
  · intro s objs o ho hblas h0
    have hf : tableFind (getBLASId o.blas) s.blases = none := by
      rw [hblas]
      exact (tableFind_eq_none_iff _ _).mpr h0
    exact js_createTLAS_marshal_fail s objs (marshalInstances_none ho (marshalInstance_none hf))

/-- Witness for `rt_C10_id_zero` at concrete inputs. -/
theorem rt_C10_witness :
    js_destroyGeometry (initRTState alwaysOkBackend) (some { id := none }) =
      (initRTState alwaysOkBackend, []) ∧
    js_createBLAS (initRTState alwaysOkBackend) (some [{ id := none }]) =
      (none, initRTState alwaysOkBackend, []) := by
  constructor
  · exact rt_C10_id_zero.2.2.2.2.2.2.1 (initRTState alwaysOkBackend) (by decide)
  · exact rt_C10_id_zero.2.2.2.2.2.2.2.2.2.1 (initRTState alwaysOkBackend)
      [{ id := none }] (List.mem_singleton_self _) (by decide)

/-! ## Claim C1 -/

/-- Claim C1: if the backend is absent or its `isSupported()` is false,
every creation entry point returns the absent value (JS `null`), the
whole global state (in particular each of the three registry tables) is
unchanged, and no backend call is made — for any input. -/
theorem rt_C1_unsupported_short_circuit (s : RTState)
    (hun : s.backend = none ∨ ∃ be, s.backend = some be ∧ be.isSupported = false) :
    (∀ a, js_createGeometry s a = (none, s, [])) ∧
    (∀ a, js_createBLAS s a = (none, s, [])) ∧
    (∀ a, js_createTLAS s a = (none, s, [])) := by
  rcases hun with hn | ⟨be, hbe, hsup⟩
  · refine ⟨fun a => ?_, fun a => ?_, fun a => ?_⟩
    · unfold js_createGeometry
      rw [hn]
    · unfold js_createBLAS
      rw [hn]
    · unfold js_createTLAS
      rw [hn]
  · refine ⟨fun a => ?_, fun a => ?_, fun a => ?_⟩
    · unfold js_createGeometry
      rw [hbe]
      simp [hsup]
    · unfold js_createBLAS
      rw [hbe]
      simp [hsup]
    · unfold js_createTLAS
      rw [hbe]
      simp [hsup]

/-- Witness for `rt_C1_unsupported_short_circuit`: the backend the
repository actually installs (the stub) is unsupported, so creation
returns null and changes nothing. -/
theorem rt_C1_witness :
    js_createGeometry (initRTState createRTBackend) (some goodGeomOptions) =
      (none, initRTState createRTBackend, []) :=
  (rt_C1_unsupported_short_circuit (initRTState createRTBackend)
    (Or.inr ⟨createRTBackend, rfl, rfl⟩)).1 (some goodGeomOptions)

/-! ## Claim C2 -/

/-- Claim C2: if any instance handed to `createTLAS` has a `blas` field
that resolves to an id not currently present in the BLAS registry
(destroyed, never issued, or missing), the entire call fails: null is
returned, the state is unchanged (no TLAS entry registered), and no
backend call of any kind — in particular no backend `createTLAS` — is
made. -/
theorem rt_C2_invalid_blas_fails (s : RTState) (objs : List JSInstanceObj)
    (o : JSInstanceObj) (ho : o ∈ objs)
    (hf : tableFind (getBLASId o.blas) s.blases = none) :
    js_createTLAS s (some objs) = (none, s, []) :=
  js_createTLAS_marshal_fail s objs (marshalInstances_none ho (marshalInstance_none hf))



/-- Witness for `rt_C2_invalid_blas_fails` at a concrete state. -/
theorem rt_C2_witness :
    js_createTLAS oneBlasState (some [staleBlasInst]) = (none, oneBlasState, []) :=
  rt_C2_invalid_blas_fails oneBlasState [staleBlasInst] staleBlasInst
    (List.mem_singleton_self _) (by decide)

/-! ## Claims C8 and C9 (destroy semantics) -/

theorem js_destroyGeometry_notFound {s : RTState} {h : JSHandleObj}
    (hf : tableFind (getGeometryId h) s.geometries = none) :
    js_destroyGeometry s (some h) = (s, []) := by
  unfold js_destroyGeometry
  dsimp only
  rw [hf]

theorem js_destroyGeometry_found {s : RTState} {h : JSHandleObj} {hh : RTGeometryHandle}
    (hf : tableFind (getGeometryId h) s.geometries = some hh) :
    js_destroyGeometry s (some h) =
      ({ s with geometries := tableErase (getGeometryId h) s.geometries },
       match s.backend with
       | none => []
       | some _ => [BackendCall.destroyGeometry hh]) := by
  unfold js_destroyGeometry
  dsimp only
  rw [hf]

theorem js_destroyBLAS_notFound {s : RTState} {h : JSHandleObj}
    (hf : tableFind (getBLASId h) s.blases = none) :
    js_destroyBLAS s (some h) = (s, []) := by
  unfold js_destroyBLAS
  dsimp only
  rw [hf]

theorem js_destroyBLAS_found {s : RTState} {h : JSHandleObj} {hh : RTBLASHandle}
    (hf : tableFind (getBLASId h) s.blases = some hh) :
    js_destroyBLAS s (some h) =
      ({ s with blases := tableErase (getBLASId h) s.blases },
       match s.backend with
       | none => []
       | some _ => [BackendCall.destroyBLAS hh]) := by
  unfold js_destroyBLAS
  dsimp only
  rw [hf]

theorem js_destroyTLAS_notFound {s : RTState} {h : JSHandleObj}
    (hf : tableFind (getTLASId h) s.tlases = none) :
    js_destroyTLAS s (some h) = (s, []) := by
  unfold js_destroyTLAS
  dsimp only
  rw [hf]

theorem js_destroyTLAS_found {s : RTState} {h : JSHandleObj} {hh : RTTLASHandle}
    (hf : tableFind (getTLASId h) s.tlases = some hh) :
    js_destroyTLAS s (some h) =
      ({ s with tlases := tableErase (getTLASId h) s.tlases },
       match s.backend with
       | none => []
       | some _ => [BackendCall.destroyTLAS hh]) := by
  unfold js_destroyTLAS
  dsimp only
  rw [hf]

/-- Claim C8: each destroy operation is idempotent.  A second destroy of
the same handle object finds nothing, changes nothing and makes no
backend call (so `destroy(h); destroy(h)` ends in the same state as
`destroy(h)` alone), and destroying a handle whose id was never issued
(not in the table) is a complete no-op.  No error channel exists: the
operations always return JS `undefined`. -/
theorem rt_C8_destroy_idempotent :
    (∀ (s : RTState) (h : JSHandleObj),
        js_destroyGeometry (js_destroyGeometry s (some h)).1 (some h) =
          ((js_destroyGeometry s (some h)).1, [])) ∧
    (∀ (s : RTState) (h : JSHandleObj),
        tableFind (getGeometryId h) s.geometries = none →
        js_destroyGeometry s (some h) = (s, [])) ∧
    (∀ (s : RTState) (h : JSHandleObj),
        js_destroyBLAS (js_destroyBLAS s (some h)).1 (some h) =
          ((js_destroyBLAS s (some h)).1, [])) ∧
    (∀ (s : RTState) (h : JSHandleObj),
        tableFind (getBLASId h) s.blases = none →
        js_destroyBLAS s (some h) = (s, [])) ∧
    (∀ (s : RTState) (h : JSHandleObj),
        js_destroyTLAS (js_destroyTLAS s (some h)).1 (some h) =
          ((js_destroyTLAS s (some h)).1, [])) ∧
    (∀ (s : RTState) (h : JSHandleObj),
        tableFind (getTLASId h) s.tlases = none →
        js_destroyTLAS s (some h) = (s, [])) := by
  refine ⟨?_, fun s h hf => js_destroyGeometry_notFound hf,
          ?_, fun s h hf => js_destroyBLAS_notFound hf,
          ?_, fun s h hf => js_destroyTLAS_notFound hf⟩
  · intro s h
    cases hf : tableFind (getGeometryId h) s.geometries with
    | none =>
      rw [js_destroyGeometry_notFound hf]
      exact js_destroyGeometry_notFound hf
    | some hh =>
      rw [js_destroyGeometry_found hf]
      exact js_destroyGeometry_notFound (by
        dsimp only
        exact tableFind_erase_self _ _)
  · intro s h
    cases hf : tableFind (getBLASId h) s.blases with
    | none =>
      rw [js_destroyBLAS_notFound hf]
      exact js_destroyBLAS_notFound hf
    | some hh =>
      rw [js_destroyBLAS_found hf]
      exact js_destroyBLAS_notFound (by
        dsimp only
        exact tableFind_erase_self _ _)
  · intro s h
    cases hf : tableFind (getTLASId h) s.tlases with
    | none =>
      rw [js_destroyTLAS_notFound hf]
      exact js_destroyTLAS_notFound hf
    | some hh =>
      rw [js_destroyTLAS_found hf]
      exact js_destroyTLAS_notFound (by
        dsimp only
        exact tableFind_erase_self _ _)

/-- Witness for `rt_C8_destroy_idempotent`: destroying a never-issued id
in the fresh state is a no-op. -/
theorem rt_C8_witness :
    js_destroyGeometry (initRTState alwaysOkBackend) (some { id := some 5 }) =
      (initRTState alwaysOkBackend, []) :=
  rt_C8_destroy_idempotent.2.1 (initRTState alwaysOkBackend) { id := some 5 } (by decide)

/-- Claim C9: each destroy operation only ever touches its own registry
table: the other two tables, all three id allocators and the backend
pointer are unchanged, for every starting state and every argument. -/
theorem rt_C9_destroy_frame :
    (∀ (s : RTState) (a : Option JSHandleObj),
        (js_destroyGeometry s a).1.blases = s.blases ∧
        (js_destroyGeometry s a).1.tlases = s.tlases ∧
        (js_destroyGeometry s a).1.backend = s.backend ∧
        (js_destroyGeometry s a).1.nextGeometryId = s.nextGeometryId ∧
        (js_destroyGeometry s a).1.nextBLASId = s.nextBLASId ∧
        (js_destroyGeometry s a).1.nextTLASId = s.nextTLASId) ∧
    (∀ (s : RTState) (a : Option JSHandleObj),
        (js_destroyBLAS s a).1.geometries = s.geometries ∧
        (js_destroyBLAS s a).1.tlases = s.tlases ∧
        (js_destroyBLAS s a).1.backend = s.backend ∧
        (js_destroyBLAS s a).1.nextGeometryId = s.nextGeometryId ∧
        (js_destroyBLAS s a).1.nextBLASId = s.nextBLASId ∧
        (js_destroyBLAS s a).1.nextTLASId = s.nextTLASId) ∧
    (∀ (s : RTState) (a : Option JSHandleObj),
        (js_destroyTLAS s a).1.geometries = s.geometries ∧
        (js_destroyTLAS s a).1.blases = s.blases ∧
        (js_destroyTLAS s a).1.backend = s.backend ∧
        (js_destroyTLAS s a).1.nextGeometryId = s.nextGeometryId ∧
        (js_destroyTLAS s a).1.nextBLASId = s.nextBLASId ∧
        (js_destroyTLAS s a).1.nextTLASId = s.nextTLASId) := by
  refine ⟨fun s a => ?_, fun s a => ?_, fun s a => ?_⟩
  · rcases js_destroyGeometry_spec s a with hs | ⟨k, hs⟩ <;> simp [hs]
  · rcases js_destroyBLAS_spec s a with hs | ⟨k, hs⟩ <;> simp [hs]
  · rcases js_destroyTLAS_spec s a with hs | ⟨k, hs⟩ <;> simp [hs]

/-! ## Claim C5 -/

/-- One binding call preserves "no table holds a null native handle":
creations only register after checking the backend handle is non-null,
and destruction only removes entries. -/
theorem tablesNonNull_step (s : RTState) (op : RTOp) (hn : TablesNonNull s) :
    TablesNonNull (stepOp s op) := by
  cases op with
  | createGeometry a =>
    rcases js_createGeometry_spec s a with ⟨_, h2⟩ | ⟨h, hne, _, h2⟩
    · simpa only [stepOp, h2] using hn
    · refine ⟨fun p hp => ?_, fun p hp => ?_, fun p hp => ?_⟩
      · simp only [stepOp, h2] at hp
        rcases mem_tableInsert hp with heq | hp
        · rw [heq]
          exact hne
        · exact hn.1 p hp
      · simp only [stepOp, h2] at hp
        exact hn.2.1 p hp
      · simp only [stepOp, h2] at hp
        exact hn.2.2 p hp
  | createBLAS a =>
    rcases js_createBLAS_spec s a with ⟨_, h2⟩ | ⟨h, hne, _, h2⟩
    · simpa only [stepOp, h2] using hn
    · refine ⟨fun p hp => ?_, fun p hp => ?_, fun p hp => ?_⟩
      · simp only [stepOp, h2] at hp
        exact hn.1 p hp
      · simp only [stepOp, h2] at hp
        rcases mem_tableInsert hp with heq | hp
        · rw [heq]
          exact hne
        · exact hn.2.1 p hp
      · simp only [stepOp, h2] at hp
        exact hn.2.2 p hp
  | createTLAS a =>
    rcases js_createTLAS_spec s a with ⟨_, h2⟩ | ⟨h, hne, _, h2⟩
    · simpa only [stepOp, h2] using hn
    · refine ⟨fun p hp => ?_, fun p hp => ?_, fun p hp => ?_⟩
      · simp only [stepOp, h2] at hp
        exact hn.1 p hp
      · simp only [stepOp, h2] at hp
        exact hn.2.1 p hp
      · simp only [stepOp, h2] at hp
        rcases mem_tableInsert hp with heq | hp
        · rw [heq]
          exact hne
        · exact hn.2.2 p hp
  | updateTLAS a =>
    simpa only [stepOp, js_updateTLAS_state] using hn
  | destroyGeometry a =>
    rcases js_destroyGeometry_spec s a with h2 | ⟨k, h2⟩
    · simpa only [stepOp, h2] using hn
    · refine ⟨fun p hp => ?_, fun p hp => ?_, fun p hp => ?_⟩
      · simp only [stepOp, h2] at hp
        exact hn.1 p (mem_tableErase hp)
      · simp only [stepOp, h2] at hp
        exact hn.2.1 p hp
      · simp only [stepOp, h2] at hp
        exact hn.2.2 p hp
  | destroyBLAS a =>
    rcases js_destroyBLAS_spec s a with h2 | ⟨k, h2⟩
    · simpa only [stepOp, h2] using hn
    · refine ⟨fun p hp => ?_, fun p hp => ?_, fun p hp => ?_⟩
      · simp only [stepOp, h2] at hp
        exact hn.1 p hp
      · simp only [stepOp, h2] at hp
        exact hn.2.1 p (mem_tableErase hp)
      · simp only [stepOp, h2] at hp
        exact hn.2.2 p hp
  | destroyTLAS a =>
    rcases js_destroyTLAS_spec s a with h2 | ⟨k, h2⟩
    · simpa only [stepOp, h2] using hn
    · refine ⟨fun p hp => ?_, fun p hp => ?_, fun p hp => ?_⟩
      · simp only [stepOp, h2] at hp
        exact hn.1 p hp
      · simp only [stepOp, h2] at hp
        exact hn.2.1 p hp
      · simp only [stepOp, h2] at hp
        exact hn.2.2 p (mem_tableErase hp)

theorem tablesNonNull_runOps (ops : List RTOp) :
    ∀ s : RTState, TablesNonNull s → TablesNonNull (runOps s ops) := by
  induction ops with
  | nil => exact fun s hn => hn
  | cons op rest ih => exact fun s hn => ih (stepOp s op) (tablesNonNull_step s op hn)

/-- Strengthened creation characterization for geometry, recording the
backend linkage: either the call fails with no state change, or the
backend was called on the marshaled descriptor, returned a non-null
handle, and exactly that handle (with the fresh id) was registered. -/
theorem js_createGeometry_registration (s : RTState) (a : Option JSGeometryOptions) :
    ((js_createGeometry s a).1 = none ∧ (js_createGeometry s a).2.1 = s) ∨
    (∃ (be : IRTBackend) (d : RTGeometryDesc), s.backend = some be ∧
      (js_createGeometry s a).2.2 = [BackendCall.createGeometry d] ∧
      (be.createGeometry d).native ≠ 0 ∧
      (js_createGeometry s a).1 = some { kind := .geometry, id := s.nextGeometryId } ∧
      (js_createGeometry s a).2.1 =
        { s with nextGeometryId := (s.nextGeometryId + 1) % UINT32_MOD
                 geometries := tableInsert s.nextGeometryId
                   { be.createGeometry d with id := s.nextGeometryId } s.geometries }) := by
  unfold js_createGeometry
  dsimp only
  split
  · exact Or.inl ⟨rfl, rfl⟩
  rename_i be hbe
  split
  · exact Or.inl ⟨rfl, rfl⟩
  split
  · exact Or.inl ⟨rfl, rfl⟩
  split
  · exact Or.inl ⟨rfl, rfl⟩
  split
  · exact Or.inl ⟨rfl, rfl⟩
  rename_i hne
  exact Or.inr ⟨be, _, hbe, rfl, hne, rfl, rfl⟩

/-- Strengthened creation characterization for BLASes. -/
theorem js_createBLAS_registration (s : RTState) (a : Option (List JSHandleObj)) :
    ((js_createBLAS s a).1 = none ∧ (js_createBLAS s a).2.1 = s) ∨
    (∃ (be : IRTBackend) (hs : List RTGeometryHandle), s.backend = some be ∧
      (js_createBLAS s a).2.2 = [BackendCall.createBLAS hs] ∧
      (be.createBLAS hs).native ≠ 0 ∧
      (js_createBLAS s a).1 = some { kind := .blas, id := s.nextBLASId } ∧
      (js_createBLAS s a).2.1 =
        { s with nextBLASId := (s.nextBLASId + 1) % UINT32_MOD
                 blases := tableInsert s.nextBLASId
                   { be.createBLAS hs with id := s.nextBLASId } s.blases }) := by
  unfold js_createBLAS
  dsimp only
  split
  · exact Or.inl ⟨rfl, rfl⟩
  rename_i be hbe
  split
  · exact Or.inl ⟨rfl, rfl⟩
  split
  · exact Or.inl ⟨rfl, rfl⟩
  split
  · exact Or.inl ⟨rfl, rfl⟩
  split
  · exact Or.inl ⟨rfl, rfl⟩
  split
  · exact Or.inl ⟨rfl, rfl⟩
  rename_i hne
  exact Or.inr ⟨be, _, hbe, rfl, hne, rfl, rfl⟩

/-- Strengthened creation characterization for TLASes. -/
theorem js_createTLAS_registration (s : RTState) (a : Option (List JSInstanceObj)) :
    ((js_createTLAS s a).1 = none ∧ (js_createTLAS s a).2.1 = s) ∨
    (∃ (be : IRTBackend) (insts : List RTTLASInstance), s.backend = some be ∧
      (js_createTLAS s a).2.2 = [BackendCall.createTLAS insts] ∧
      (be.createTLAS insts).native ≠ 0 ∧
      (js_createTLAS s a).1 = some { kind := .tlas, id := s.nextTLASId } ∧
      (js_createTLAS s a).2.1 =
        { s with nextTLASId := (s.nextTLASId + 1) % UINT32_MOD
                 tlases := tableInsert s.nextTLASId
                   { be.createTLAS insts with id := s.nextTLASId } s.tlases }) := by
  unfold js_createTLAS
  dsimp only
  split
  · exact Or.inl ⟨rfl, rfl⟩
  rename_i be hbe
  split
  · exact Or.inl ⟨rfl, rfl⟩
  split
  · exact Or.inl ⟨rfl, rfl⟩
  split
  · exact Or.inl ⟨rfl, rfl⟩
  split
  · exact Or.inl ⟨rfl, rfl⟩
  split
  · exact Or.inl ⟨rfl, rfl⟩
  rename_i hne
  exact Or.inr ⟨be, _, hbe, rfl, hne, rfl, rfl⟩

/-- Claim C5: for each creation entry point, either the call fails (null
returned, state unchanged, nothing registered) or the backend returned a
handle with non-null native pointer and exactly that handle was
registered under the fresh id — a null backend handle is never
registered.  Consequently no registry table reachable from a fresh state
ever contains a null native handle. -/
theorem rt_C5_registered_iff_nonnull :
    (∀ (be : IRTBackend) (ops : List RTOp),
        TablesNonNull (runOps (initRTState be) ops)) ∧
    (∀ (s : RTState) (a : Option JSGeometryOptions),
      ((js_createGeometry s a).1 = none ∧ (js_createGeometry s a).2.1 = s) ∨
      (∃ (be : IRTBackend) (d : RTGeometryDesc), s.backend = some be ∧
        (js_createGeometry s a).2.2 = [BackendCall.createGeometry d] ∧
        (be.createGeometry d).native ≠ 0 ∧
        (js_createGeometry s a).1 = some { kind := .geometry, id := s.nextGeometryId } ∧
        (js_createGeometry s a).2.1 =
          { s with nextGeometryId := (s.nextGeometryId + 1) % UINT32_MOD
                   geometries := tableInsert s.nextGeometryId
                     { be.createGeometry d with id := s.nextGeometryId } s.geometries })) ∧
    (∀ (s : RTState) (a : Option (List JSHandleObj)),
      ((js_createBLAS s a).1 = none ∧ (js_createBLAS s a).2.1 = s) ∨
      (∃ (be : IRTBackend) (hs : List RTGeometryHandle), s.backend = some be ∧
        (js_createBLAS s a).2.2 = [BackendCall.createBLAS hs] ∧
        (be.createBLAS hs).native ≠ 0 ∧
        (js_createBLAS s a).1 = some { kind := .blas, id := s.nextBLASId } ∧
        (js_createBLAS s a).2.1 =
          { s with nextBLASId := (s.nextBLASId + 1) % UINT32_MOD
                   blases := tableInsert s.nextBLASId
                     { be.createBLAS hs with id := s.nextBLASId } s.blases })) ∧
    (∀ (s : RTState) (a : Option (List JSInstanceObj)),
      ((js_createTLAS s a).1 = none ∧ (js_createTLAS s a).2.1 = s) ∨
      (∃ (be : IRTBackend) (insts : List RTTLASInstance), s.backend = some be ∧
        (js_createTLAS s a).2.2 = [BackendCall.createTLAS insts] ∧
        (be.createTLAS insts).native ≠ 0 ∧
        (js_createTLAS s a).1 = some { kind := .tlas, id := s.nextTLASId } ∧
        (js_createTLAS s a).2.1 =
          { s with nextTLASId := (s.nextTLASId + 1) % UINT32_MOD
                   tlases := tableInsert s.nextTLASId
                     { be.createTLAS insts with id := s.nextTLASId } s.tlases })) :=
  ⟨fun be ops => tablesNonNull_runOps ops (initRTState be)
      ⟨fun p hp => absurd hp (List.not_mem_nil p),
       fun p hp => absurd hp (List.not_mem_nil p),
       fun p hp => absurd hp (List.not_mem_nil p)⟩,
   js_createGeometry_registration, js_createBLAS_registration, js_createTLAS_registration⟩

/-! ## Marshaling characterization (claims C3, C6) -/

/-- Pointwise description of a successful instance-marshaling run: the
`i`-th marshaled instance carries the resolved BLAS handle, the marshaled
transform, the `instanceId` defaulted on absence only, and the
unconditional `mask = 0xFF`, `flags = 0`. -/
theorem marshalInstances_get {s : RTState} :
    ∀ {objs : List JSInstanceObj} {insts : List RTTLASInstance},
      marshalInstances s objs = some insts →
      insts.length = objs.length ∧
      ∀ (i : Nat) (hi : i < objs.length) (hj : i < insts.length),
        ∃ bh, tableFind (getBLASId (objs.get ⟨i, hi⟩).blas) s.blases = some bh ∧
          insts.get ⟨i, hj⟩ =
            { blas := bh
              transform := marshalTransform (objs.get ⟨i, hi⟩).transform
              instanceId := match (objs.get ⟨i, hi⟩).instanceId with
                            | none => 0
                            | some n => n
              mask := 255
              flags := 0 } := by
  intro objs
  induction objs with
  | nil =>
    intro insts h
    cases h
    exact ⟨rfl, fun i hi => absurd hi (Nat.not_lt_zero i)⟩
  | cons a rest ih =>
    intro insts h
    unfold marshalInstances at h
    cases hma : marshalInstance s a with
    | none =>
      rw [hma] at h
      cases h
    | some inst =>
      rw [hma] at h
      cases hmr : marshalInstances s rest with
      | none =>
        rw [hmr] at h
        cases h
      | some is =>
        rw [hmr] at h
        cases h
        rcases ih hmr with ⟨hlen, hpt⟩
        refine ⟨by simp [hlen], ?_⟩
        intro i hi hj
        cases i with
        | zero =>
          unfold marshalInstance at hma
          cases hfa : tableFind (getBLASId a.blas) s.blases with
          | none =>
            rw [hfa] at hma
            cases hma
          | some bh =>
            rw [hfa] at hma
            refine ⟨bh, hfa, ?_⟩
            show inst = _
            exact (Option.some.injEq _ _ ▸ hma).symm
        | succ n =>
          exact hpt n (Nat.lt_of_succ_lt_succ hi) (Nat.lt_of_succ_lt_succ hj)

/-- If `js_createTLAS` made a backend `createTLAS` call, the instance
list it passed is the marshaling of the argument array. -/
theorem js_createTLAS_calls {s : RTState} {objs : List JSInstanceObj}
    {insts : List RTTLASInstance}
    (hc : (js_createTLAS s (some objs)).2.2 = [BackendCall.createTLAS insts]) :
    marshalInstances s objs = some insts := by
  unfold js_createTLAS at hc
  dsimp only at hc
  split at hc
  · simp at hc
  split at hc
  · simp at hc
  split at hc
  · simp at hc
  split at hc
  · simp at hc
  rename_i insts' heq
  split at hc <;>
  · simp only [List.cons.injEq, BackendCall.createTLAS.injEq, and_true] at hc
    rw [← hc]
    exact heq

/-- If `js_updateTLAS` made a backend `updateTLAS` call, the instance
list it passed is the marshaling of the argument array. -/
theorem js_updateTLAS_calls {s : RTState} {t : JSHandleObj} {objs : List JSInstanceObj}
    {th : RTTLASHandle} {insts : List RTTLASInstance}
    (hc : (js_updateTLAS s (some (t, some objs))).2 = [BackendCall.updateTLAS th insts]) :
    marshalInstances s objs = some insts := by
  unfold js_updateTLAS at hc
  dsimp only at hc
  split at hc
  · simp at hc
  split at hc
  · simp at hc
  split at hc
  · simp at hc
  split at hc
  · simp at hc
  rename_i insts' heq
  simp only [List.cons.injEq, BackendCall.updateTLAS.injEq, and_true] at hc
  rw [← hc.2]
  exact heq

/-! ## Claim C3 -/


/-- Claim C3 counterexample: at a concrete `createTLAS` call whose
instance object carries `mask = 5` and `flags = 3`, the instance
descriptor passed to the backend nevertheless has `mask = 0xFF` and
`flags = 0` — a present `mask`/`flags` value is NOT used (the bindings
set both unconditionally); only `instanceId` (7 here) is honoured. -/
theorem rt_C3_counterexample :
    maskedInst.mask = some 5 ∧ maskedInst.flags = some 3 ∧
    (js_createTLAS oneBlasState (some [maskedInst])).2.2 =
      [BackendCall.createTLAS
        [{ blas := { native := 5, id := 1 }
           transform := identityTransform
           instanceId := 7
           mask := 255
           flags := 0 }]] ∧
    (255 : Nat) ≠ 5 ∧ (0 : Nat) ≠ 3 := by
  refine ⟨rfl, rfl, ?_, by decide, by decide⟩
  decide

/-- Claim C3 (amended): in the instance descriptors `createTLAS` and
`updateTLAS` pass to the backend, `instanceId` falls back to 0 exactly
when the script field is absent or undefined and a present value is
used; `mask` and `flags` are unconditionally marshaled as 0xFF and 0,
ignoring any `mask`/`flags` fields present on the script object. -/
theorem rt_C3_instance_defaults :
    (∀ (s : RTState) (objs : List JSInstanceObj) (insts : List RTTLASInstance),
        (js_createTLAS s (some objs)).2.2 = [BackendCall.createTLAS insts] →
        insts.length = objs.length ∧
        ∀ (i : Nat) (hi : i < objs.length) (hj : i < insts.length),
          (insts.get ⟨i, hj⟩).instanceId =
            (match (objs.get ⟨i, hi⟩).instanceId with
             | none => 0
             | some n => n) ∧
          (insts.get ⟨i, hj⟩).mask = 255 ∧
          (insts.get ⟨i, hj⟩).flags = 0) ∧
    (∀ (s : RTState) (t : JSHandleObj) (objs : List JSInstanceObj)
        (th : RTTLASHandle) (insts : List RTTLASInstance),
        (js_updateTLAS s (some (t, some objs))).2 = [BackendCall.updateTLAS th insts] →
        insts.length = objs.length ∧
        ∀ (i : Nat) (hi : i < objs.length) (hj : i < insts.length),
          (insts.get ⟨i, hj⟩).instanceId =
            (match (objs.get ⟨i, hi⟩).instanceId with
             | none => 0
             | some n => n) ∧
          (insts.get ⟨i, hj⟩).mask = 255 ∧
          (insts.get ⟨i, hj⟩).flags = 0) := by
  constructor
  · intro s objs insts hc
    rcases marshalInstances_get (js_createTLAS_calls hc) with ⟨hlen, hpt⟩
    refine ⟨hlen, fun i hi hj => ?_⟩
    rcases hpt i hi hj with ⟨bh, _, hinst⟩
    rw [hinst]
    exact ⟨rfl, rfl, rfl⟩
  · intro s t objs th insts hc
    rcases marshalInstances_get (js_updateTLAS_calls hc) with ⟨hlen, hpt⟩
    refine ⟨hlen, fun i hi hj => ?_⟩
    rcases hpt i hi hj with ⟨bh, _, hinst⟩
    rw [hinst]
    exact ⟨rfl, rfl, rfl⟩


/-- Witness for `rt_C3_instance_defaults` at a concrete call. -/
theorem rt_C3_witness :
    maskedInstMarshaled.length = [maskedInst].length ∧
    (maskedInstMarshaled.get ⟨0, by decide⟩).instanceId =
      (match maskedInst.instanceId with
       | none => 0
       | some n => n) ∧
    (maskedInstMarshaled.get ⟨0, by decide⟩).mask = 255 ∧
    (maskedInstMarshaled.get ⟨0, by decide⟩).flags = 0 := by
  have h := rt_C3_instance_defaults.1 oneBlasState [maskedInst] maskedInstMarshaled
    (by decide)
  exact ⟨h.1, h.2 0 (by decide) (by decide)⟩

/-! ## Claim C6 -/

/-- Transform fallback: when the script transform value is absent, not a
buffer, or a buffer of fewer than 16 elements, the marshaled transform is
exactly the identity matrix. -/
theorem marshalTransform_short (v : JSBufVal F32)
    (hv : ∀ l, v = JSBufVal.buffer l → l.length < 16) :
    marshalTransform v = [1, 0, 0, 0, 0, 1, 0, 0, 0, 0, 1, 0, 0, 0, 0, 1] := by
  have hid : identityTransform = [1, 0, 0, 0, 0, 1, 0, 0, 0, 0, 1, 0, 0, 0, 0, 1] := by
    decide
  cases v with
  | undef => simpa [marshalTransform, extractFloat32Array] using hid
  | other => simpa [marshalTransform, extractFloat32Array] using hid
  | buffer l =>
    have hl := hv l rfl
    unfold marshalTransform extractFloat32Array
    by_cases h0 : l.length = 0
    · simpa [h0] using hid
    · simpa [h0, Nat.not_le.mpr hl] using hid

/-- Claim C6: every TLAS instance marshaled by `createTLAS` or
`updateTLAS` whose `transform` field is absent, not a valid float buffer,
or a buffer of fewer than 16 elements receives exactly the identity
matrix — entries 0, 5, 10, 15 equal to 1.0 and the other twelve entries
equal to 0.0 — in the descriptor passed to the backend. -/
theorem rt_C6_short_transform_identity :
    (∀ v : JSBufVal F32, (∀ l, v = JSBufVal.buffer l → l.length < 16) →
        marshalTransform v = [1, 0, 0, 0, 0, 1, 0, 0, 0, 0, 1, 0, 0, 0, 0, 1]) ∧
    (∀ (s : RTState) (objs : List JSInstanceObj) (insts : List RTTLASInstance),
        (js_createTLAS s (some objs)).2.2 = [BackendCall.createTLAS insts] →
        ∀ (i : Nat) (hi : i < objs.length) (hj : i < insts.length),
          (∀ l, (objs.get ⟨i, hi⟩).transform = JSBufVal.buffer l → l.length < 16) →
          (insts.get ⟨i, hj⟩).transform =
            [1, 0, 0, 0, 0, 1, 0, 0, 0, 0, 1, 0, 0, 0, 0, 1]) ∧
    (∀ (s : RTState) (t : JSHandleObj) (objs : List JSInstanceObj)
        (th : RTTLASHandle) (insts : List RTTLASInstance),
        (js_updateTLAS s (some (t, some objs))).2 = [BackendCall.updateTLAS th insts] →
        ∀ (i : Nat) (hi : i < objs.length) (hj : i < insts.length),
          (∀ l, (objs.get ⟨i, hi⟩).transform = JSBufVal.buffer l → l.length < 16) →
          (insts.get ⟨i, hj⟩).transform =
            [1, 0, 0, 0, 0, 1, 0, 0, 0, 0, 1, 0, 0, 0, 0, 1]) := by
  refine ⟨marshalTransform_short, ?_, ?_⟩
  · intro s objs insts hc i hi hj hshort
    rcases (marshalInstances_get (js_createTLAS_calls hc)).2 i hi hj with ⟨bh, _, hinst⟩
    rw [hinst]
    exact marshalTransform_short _ hshort
  · intro s t objs th insts hc i hi hj hshort
    rcases (marshalInstances_get (js_updateTLAS_calls hc)).2 i hi hj with ⟨bh, _, hinst⟩
    rw [hinst]
    exact marshalTransform_short _ hshort

/-- Witness for `rt_C6_short_transform_identity`: a three-element
transform buffer resolves to the full identity matrix. -/
theorem rt_C6_witness :
    marshalTransform (JSBufVal.buffer [2, 2, 2]) =
      [1, 0, 0, 0, 0, 1, 0, 0, 0, 0, 1, 0, 0, 0, 0, 1] :=
  rt_C6_short_transform_identity.1 (JSBufVal.buffer [2, 2, 2])
    (by intro l hl; cases hl; decide)

/-! ## Claim C7 -/


/-- Claim C7 counterexample: a `createGeometry` call whose `indices`
field is present but extracts to a zero-byte-length buffer does NOT fail:
over a succeeding backend the call still returns a geometry wrapper
(id 1) — the failed indices extraction is silently treated as "no
indices", contradicting the claim that any supplied buffer extraction
failure fails the overall operation. -/
theorem rt_C7_counterexample :
    emptyIndicesOptions.indices ≠ JSBufVal.undef ∧
    extractUint32Array emptyIndicesOptions.indices = none ∧
    (js_createGeometry (initRTState alwaysOkBackend) (some emptyIndicesOptions)).1 =
      some { kind := HandleKind.geometry, id := 1 } := by
  refine ⟨by decide, by decide, ?_⟩
  decide

/-- Claim C7 (amended): if extraction of the required `vertices` buffer
fails (absent, not a buffer, or zero byte length) the call fails —
null returned, state unchanged, no backend call.  A present `indices`
field whose extraction fails does not fail the call: the descriptor
passed to the backend simply carries a null index pointer and index
count 0 (non-indexed geometry). -/
theorem rt_C7_buffer_extraction :
    (∀ (s : RTState) (opts : JSGeometryOptions),
        extractFloat32Array opts.vertices = none →
        js_createGeometry s (some opts) = (none, s, [])) ∧
    (∀ (s : RTState) (opts : JSGeometryOptions) (d : RTGeometryDesc),
        (js_createGeometry s (some opts)).2.2 = [BackendCall.createGeometry d] →
        opts.indices ≠ JSBufVal.undef →
        extractUint32Array opts.indices = none →
        d.indices = none ∧ d.indexCount = 0) := by
  constructor
  · intro s opts hv
    unfold js_createGeometry
    dsimp only
    split
    · rfl
    split
    · rfl
    rw [hv]
  · intro s opts d hc hneq hui
    unfold js_createGeometry at hc
    dsimp only at hc
    split at hc
    · simp at hc
    split at hc
    · simp at hc
    split at hc
    · simp at hc
    split at hc <;>
    · dsimp only at hc
      simp only [List.cons.injEq, BackendCall.createGeometry.injEq, and_true] at hc
      subst hc
      cases hoi : opts.indices with
      | undef => exact absurd hoi hneq
      | buffer l =>
        rw [hoi] at hui
        simp [hui]
      | other =>
        rw [hoi] at hui
        simp [hui]

/-- Witness for `rt_C7_buffer_extraction` at concrete inputs: a
non-buffer `vertices` value fails the call, and the descriptor built for
`emptyIndicesOptions` is non-indexed. -/
theorem rt_C7_witness :
    js_createGeometry (initRTState alwaysOkBackend)
        (some { vertices := JSBufVal.other
                indices := JSBufVal.undef
                vertexStride := none
                vertexOffset := none }) =
      (none, initRTState alwaysOkBackend, []) ∧
    goodGeomDesc.indices = none ∧ goodGeomDesc.indexCount = 0 :=
  ⟨rt_C7_buffer_extraction.1 (initRTState alwaysOkBackend)
      { vertices := JSBufVal.other
        indices := JSBufVal.undef
        vertexStride := none
        vertexOffset := none } (by decide),
   rt_C7_buffer_extraction.2 (initRTState alwaysOkBackend) emptyIndicesOptions
      goodGeomDesc (by decide) (by decide) (by decide)⟩

/-- Witness for `rt_C5_registered_iff_nonnull` at a concrete run. -/
theorem rt_C5_witness :
    TablesNonNull (runOps (initRTState createRTBackend) [goodCreateOp]) :=
  rt_C5_registered_iff_nonnull.1 createRTBackend [goodCreateOp]

/-- Witness for `rt_C9_destroy_frame` at a concrete destroy call. -/
theorem rt_C9_witness :
    (js_destroyGeometry oneBlasState (some { id := some 1 })).1.blases =
      oneBlasState.blases ∧
    (js_destroyGeometry oneBlasState (some { id := some 1 })).1.nextBLASId =
      oneBlasState.nextBLASId :=
  ⟨(rt_C9_destroy_frame.1 oneBlasState (some { id := some 1 })).1,
   (rt_C9_destroy_frame.1 oneBlasState (some { id := some 1 })).2.2.2.2.1⟩
